import Mathlib

set_option maxRecDepth 8000

/-!
Shallow embedding of `invoice_processor/core/data_extractor.py` from the
IAPA_CA repository, together with theorems settling the frozen claims about
`parse_invoice_text`, `extract_line_items` and `parse_decimal`.

Conventions used throughout:

* Python `float` arithmetic is idealised as exact rational arithmetic.  All
  numbers appearing in this program are read from decimal strings or are
  ratios of small integers, so the idealisation is faithful for the
  comparisons performed.  `Frac` below is an executable fraction type whose
  operations reduce inside the kernel (the library `Rat` operations do not),
  so concrete runs of the parser can be settled by `decide`; `Frac.toRat`
  bridges to `ℚ` for readable statements.
* Python strings are modelled as `List Char` (`String.data`); texts handled
  here are ASCII, so `len`, slicing and `str.lower` coincide with the
  per-`Char` model.
* `re.search` / `re.match` are modelled by a small backtracking regex engine
  whose alternative order reproduces Python's leftmost, first-match
  backtracking order for the pattern combinators actually used by the source
  (literals, character classes, greedy/lazy repetition of character classes,
  alternation, option, capture groups, anchors).
* `app_logger.warning` calls are modelled by a side list of `LogMsg` values;
  the warning strings appended to `result["validation"]["warnings"]` are
  modelled by the inductive `Warning`, each constructor carrying the values
  interpolated into the corresponding f-string.
* `datetime.datetime.now()` is modelled at day granularity by a parameter
  `today : Nat`, a proleptic-Gregorian ordinal as produced by `toOrdinal`
  (the same day numbering as Python `date.toordinal`).  The source compares
  `parsed_date <= today` and `parsed_date >= today - timedelta(days=365)`;
  at day granularity these are `parsed ≤ today` and `today ≤ parsed + 365`.
-/

namespace InvoiceProc

/-- Executable fraction: value `num / (dpred + 1)`.  The denominator is
stored as its predecessor so it is positive by construction. -/
structure Frac where
  num : Int
  dpred : Nat
deriving DecidableEq, Repr

/-- The (always positive) denominator. -/
def Frac.den (a : Frac) : Nat := a.dpred + 1

/-- Build `n / d` for `d ≥ 1` (junk `n / 1` scale when `d = 0`, unused). -/
def fr (n : Int) (d : Nat) : Frac := ⟨n, d - 1⟩

/-- Embed a natural number. -/
def Frac.ofNat (n : Nat) : Frac := ⟨n, 0⟩

/-- Exact addition (no normalisation; denominators multiply). -/
def Frac.add (a b : Frac) : Frac :=
  ⟨a.num * b.den + b.num * a.den, a.den * b.den - 1⟩

/-- Exact subtraction. -/
def Frac.sub (a b : Frac) : Frac :=
  ⟨a.num * b.den - b.num * a.den, a.den * b.den - 1⟩

/-- Exact multiplication. -/
def Frac.mul (a b : Frac) : Frac :=
  ⟨a.num * b.num, a.den * b.den - 1⟩

/-- Exact division; when the divisor is zero this yields the junk value `0`
(the Python source never divides by zero on the paths modelled here). -/
def Frac.div (a b : Frac) : Frac :=
  ⟨a.num * b.den * b.num.sign, a.den * b.num.natAbs - 1⟩

/-- Absolute value, `abs(x)` in Python. -/
def Frac.absF (a : Frac) : Frac := ⟨(a.num.natAbs : Int), a.dpred⟩

/-- Boolean `a ≤ b` (valid because denominators are positive). -/
def Frac.ble (a b : Frac) : Bool :=
  decide (a.num * (b.den : Int) ≤ b.num * (a.den : Int))

/-- Boolean `a < b`. -/
def Frac.blt (a b : Frac) : Bool :=
  decide (a.num * (b.den : Int) < b.num * (a.den : Int))

/-- The rational value of a fraction. -/
def Frac.toRat (a : Frac) : ℚ := (a.num : ℚ) / (a.den : ℚ)

/-! ### Python string and number helpers -/

/-- Python regex `\s` / `str.strip` whitespace (ASCII range). -/
def pyIsSpace (c : Char) : Bool :=
  c == ' ' || c == '\t' || c == '\n' || c == '\r' || c == Char.ofNat 11 || c == Char.ofNat 12

/-- Python `s.strip()`. -/
def pyStrip (cs : List Char) : List Char :=
  ((cs.dropWhile pyIsSpace).reverse.dropWhile pyIsSpace).reverse

def pySplitChAux (sep : Char) : List Char → List Char → List (List Char)
  | [], acc => [acc.reverse]
  | c :: rest, acc =>
      if c == sep then acc.reverse :: pySplitChAux sep rest []
      else pySplitChAux sep rest (c :: acc)

/-- Python `s.split(sep)` for a one-character separator. -/
def pySplitCh (sep : Char) (cs : List Char) : List (List Char) := pySplitChAux sep cs []

/-- Python `sep.join(parts)` for the one-character separator `chr 10`. -/
def pyJoinLines : List (List Char) → List Char
  | [] => []
  | [p] => p
  | p :: ps => p ++ '\n' :: pyJoinLines ps

/-- Numeric value of a digit string. -/
def evalDigits (cs : List Char) : Nat :=
  cs.foldl (fun n c => n * 10 + (c.toNat - 48)) 0

/-- Python `float(s)` restricted to strings over digits and `.` — the only
shapes reaching it in this module after currency/comma cleaning (all capture
groups are `[\d.,]`-classes).  Any other character, more than one point, or
no digit raises `ValueError` in Python, modelled as `none`. -/
def pyFloat? (cs : List Char) : Option Frac :=
  if cs.all (fun c => c.isDigit || c == '.') ∧ cs.count '.' ≤ 1 ∧ cs.any Char.isDigit then
    let ip := cs.takeWhile (fun c => c != '.')
    let fp := (cs.dropWhile (fun c => c != '.')).drop 1
    some ⟨(evalDigits ip * 10 ^ fp.length + evalDigits fp : Nat), 10 ^ fp.length - 1⟩
  else none

/-- Python `int(s)` on a (possibly stripped) digit string. -/
def pyInt? (cs : List Char) : Option Nat :=
  if cs ≠ [] ∧ cs.all Char.isDigit then some (evalDigits cs) else none

def commaToDot (c : Char) : Char := if c == ',' then '.' else c

/-- Python `s.replace(",", ".")`. -/
def replCommaDot (cs : List Char) : List Char := cs.map commaToDot

/-- Python `s.replace(",", "")`. -/
def stripCommas (cs : List Char) : List Char := cs.filter (fun c => c != ',')

/-- Python `round(x, 2)` on the exact value (banker's rounding at ties;
`Int.ediv` is floor division since denominators are positive). -/
def Frac.round2 (q : Frac) : Frac :=
  let n : Int := q.num * 100
  let d : Int := (q.den : Int)
  let fl : Int := Int.ediv n d
  let r : Int := n - fl * d
  let up : Int :=
    if 2 * r < d then fl
    else if 2 * r > d then fl + 1
    else if Int.emod fl 2 == 0 then fl else fl + 1
  ⟨up, 99⟩

/-! ### Dates: proleptic Gregorian ordinals, Python `date.toordinal` style -/

def daysInMonth (y m : Nat) : Nat :=
  if m == 2 then (if y % 4 == 0 && (y % 100 != 0 || y % 400 == 0) then 29 else 28)
  else if m == 4 || m == 6 || m == 9 || m == 11 then 30
  else 31

def daysBeforeMonth (y m : Nat) : Nat :=
  ((List.range' 1 (m - 1)).map (daysInMonth y)).sum

/-- Ordinal day number of year `y`, month `m`, day `d` (ordinal 1 is
0001-01-01, as in Python `date.toordinal`). -/
def toOrdinal (y m d : Nat) : Nat :=
  365 * (y - 1) + (y - 1) / 4 - (y - 1) / 100 + (y - 1) / 400 + daysBeforeMonth y m + d

/-- `datetime.strptime(s, fmt)` for the six formats the source tries:
1–2 digit month and day and an exactly-4-digit year, joined by `sep`, month
first iff `monthFirst`; the whole string must be consumed and the date must
be a valid calendar date (else `ValueError`, modelled as `none`).  Returns
the date as its ordinal. -/
def strptime6? (sep : Char) (monthFirst : Bool) (cs : List Char) : Option Nat :=
  match pySplitCh sep cs with
  | [f1, f2, f3] =>
      let mS := if monthFirst then f1 else f2
      let dS := if monthFirst then f2 else f1
      if mS ≠ [] ∧ mS.length ≤ 2 ∧ mS.all Char.isDigit ∧
         dS ≠ [] ∧ dS.length ≤ 2 ∧ dS.all Char.isDigit ∧
         f3.length = 4 ∧ f3.all Char.isDigit then
        let m := evalDigits mS
        let d := evalDigits dS
        let y := evalDigits f3
        if 1 ≤ m ∧ m ≤ 12 ∧ 1 ≤ d ∧ d ≤ daysInMonth y m ∧ 1 ≤ y then
          some (toOrdinal y m d)
        else none
      else none
  | _ => none

/-- The source's `date_formats` list:
`["%m/%d/%Y", "%d/%m/%Y", "%m-%d-%Y", "%d-%m-%Y", "%m.%d.%Y", "%d.%m.%Y"]`. -/
def date_formats : List (Char × Bool) :=
  [('/', true), ('/', false), ('-', true), ('-', false), ('.', true), ('.', false)]

/-- The source's loop trying each format in order, first success wins. -/
def strptimeAny? (cs : List Char) : Option Nat :=
  date_formats.findSome? (fun fb => strptime6? fb.1 fb.2 cs)

/-! ### A small backtracking regex engine

Models `re.search` / `re.match` for the pattern constructs the source uses.
`reMatches` returns every way the pattern can match a prefix of the input,
ordered by Python's backtracking preference, so `.head?` is exactly the
match Python commits to. -/

/-- Captured groups: `(index, captured text)` in match order. -/
abbrev Caps := List (Nat × List Char)

inductive RE where
  | eps : RE
  | cls : (Char → Bool) → RE
  | clsStar : (Char → Bool) → Bool → RE
  | seq : RE → RE → RE
  | alt : RE → RE → RE
  | group : Nat → RE → RE

/-- Suffixes after consuming `0, 1, 2, …` leading `p`-characters, in that
(lazy) order; reversed for greedy repetition. -/
def clsStarSuffixes (p : Char → Bool) : List Char → List (List Char)
  | [] => [[]]
  | c :: rest => if p c then (c :: rest) :: clsStarSuffixes p rest else [c :: rest]

def reMatches : RE → List Char → List (List Char × Caps)
  | .eps, cs => [(cs, [])]
  | .cls p, cs =>
      match cs with
      | [] => []
      | c :: rest => if p c then [(rest, [])] else []
  | .clsStar p lz, cs =>
      let sufs := clsStarSuffixes p cs
      (if lz then sufs else sufs.reverse).map (fun s => (s, []))
  | .seq a b, cs =>
      (reMatches a cs).flatMap (fun pr =>
        (reMatches b pr.1).map (fun qr => (qr.1, pr.2 ++ qr.2)))
  | .alt a b, cs => reMatches a cs ++ reMatches b cs
  | .group i a, cs =>
      (reMatches a cs).map (fun pr => (pr.1, pr.2 ++ [(i, cs.take (cs.length - pr.1.length))]))

/-- A pattern that matches nothing. -/
def rfail : RE := .cls (fun _ => false)

def rseq (l : List RE) : RE := l.foldr RE.seq .eps

def ralt : List RE → RE
  | [] => rfail
  | [r] => r
  | r :: rs => .alt r (ralt rs)

/-- Case-sensitive literal. -/
def lit (s : String) : RE :=
  rseq (s.data.map (fun c => RE.cls (fun x => x == c)))

/-- Case-insensitive literal (for patterns compiled with `re.IGNORECASE`). -/
def litCI (s : String) : RE :=
  rseq (s.data.map (fun c => RE.cls (fun x => x.toLower == c.toLower)))

/-- Greedy `?`. -/
def ropt (r : RE) : RE := .alt r .eps

/-- `\s*` (greedy). -/
def ws0 : RE := .clsStar pyIsSpace false

/-- `\s+` / `[\s\t]+` / `[\s\t]{1,}` (greedy). -/
def ws1 : RE := .seq (.cls pyIsSpace) ws0

/-- `\s{2,}` / `[\s\t]{2,}` (greedy). -/
def ws2 : RE := .seq (.cls pyIsSpace) ws1

def digC : Char → Bool := Char.isDigit

/-- `\d+` (greedy). -/
def dig1 : RE := .seq (.cls digC) (.clsStar digC false)

/-- `\d{1,2}` (greedy, prefers two digits). -/
def dig12 : RE := .alt (.seq (.cls digC) (.cls digC)) (.cls digC)

/-- `\d{2,4}` (greedy, prefers four digits). -/
def dig24 : RE :=
  ralt [rseq [.cls digC, .cls digC, .cls digC, .cls digC],
        rseq [.cls digC, .cls digC, .cls digC],
        rseq [.cls digC, .cls digC]]

/-- A compiled pattern; `anchorStart` models a leading `^` (or `re.match`),
`anchorEnd` a trailing `$` (no newline inside the strings it is run on). -/
structure Pat where
  re : RE
  anchorStart : Bool := false
  anchorEnd : Bool := false

/-- First match attempt at the current position (Python backtracking order,
honouring a `$` anchor). -/
def firstMatchHere (p : Pat) (cs : List Char) : Option Caps :=
  (((reMatches p.re cs).filter (fun pr => !p.anchorEnd || pr.1.isEmpty)).head?).map
    (fun pr => pr.2)

/-- `re.search`: successive start positions, leftmost match wins; only
position 0 with `anchorStart`. -/
def reSearch (p : Pat) : List Char → Option Caps
  | [] => firstMatchHere p []
  | c :: rest =>
      match firstMatchHere p (c :: rest) with
      | some g => some g
      | none => if p.anchorStart then none else reSearch p rest

/-- Does the pattern match anywhere in the string? -/
def reTest (p : Pat) (cs : List Char) : Bool := (reSearch p cs).isSome

/-- `match.group(i)`: the last capture of group `i` (total, with junk `[]`
for a group that did not participate — not the case where it is used). -/
def grp (g : Caps) (i : Nat) : List Char :=
  (((g.filter (fun x => x.1 == i)).reverse.head?).map (fun x => x.2)).getD []

/-- First pattern of a cascade that matches (`for pattern in …: if
re.search(...)`), returning its captures. -/
def firstSearch : List Pat → List Char → Option Caps
  | [], _ => none
  | p :: ps, cs =>
      match reSearch p cs with
      | some g => some g
      | none => firstSearch ps cs

/-! ### Character classes used by the source's patterns -/

/-- `[:.\s]` -/
def colonDotWs (c : Char) : Bool := c == ':' || c == '.' || pyIsSpace c

/-- `[A-Za-z0-9-]` -/
def alnumDash (c : Char) : Bool := c.isAlpha || c.isDigit || c == '-'

/-- `[\/\.-]` -/
def dateSepC (c : Char) : Bool := c == '/' || c == '.' || c == '-'

/-- `[,\d]` -/
def commaDigit (c : Char) : Bool := c == ',' || c.isDigit

/-- `[\d.,]` -/
def digitDotComma (c : Char) : Bool := c.isDigit || c == '.' || c == ','

/-- `[A-Za-z0-9\s\-\(\)]` -/
def classA (c : Char) : Bool :=
  c.isAlpha || c.isDigit || pyIsSpace c || c == '-' || c == '(' || c == ')'

/-- `[A-Za-z0-9\s\-\(\)/&]` -/
def classB (c : Char) : Bool := classA c || c == '/' || c == '&'

/-- `.` (any character except a newline) -/
def anyNotNL (c : Char) : Bool := c != '\n'

/-- `[€$]` -/
def euroDollar (c : Char) : Bool := c == '€' || c == '$'

/-- `[\s\-]` -/
def wsDash (c : Char) : Bool := pyIsSpace c || c == '-'

/-- `[A-Za-z]` -/
def alphaC (c : Char) : Bool := c.isAlpha

/-- Greedy `+` over a character class. -/
def plus (p : Char → Bool) : RE := .seq (.cls p) (.clsStar p false)

/-- Lazy `+?` over a character class. -/
def plusL (p : Char → Bool) : RE := .seq (.cls p) (.clsStar p true)

/-! ### The compiled patterns (transcribed from `data_extractor.py`; the
metadata, header and totals patterns are searched with `re.IGNORECASE`,
hence `litCI`; the item-line patterns are case-sensitive, but contain no
cased literals anyway). -/

/-- `Invoice\s*(?:#|No|Number|num)[:.\s]*\s*([A-Za-z0-9-]+)` -/
def patInvoiceNo1 : Pat :=
  { re := rseq [litCI "invoice", ws0, ralt [lit "#", litCI "no", litCI "number", litCI "num"],
      .clsStar colonDotWs false, ws0, .group 1 (plus alnumDash)] }

/-- `Invoice\s*ID[:.\s]*\s*([A-Za-z0-9-]+)` -/
def patInvoiceNo2 : Pat :=
  { re := rseq [litCI "invoice", ws0, litCI "id",
      .clsStar colonDotWs false, ws0, .group 1 (plus alnumDash)] }

/-- `(\d{1,2}[\/\.-]\d{1,2}[\/\.-]\d{2,4})` -/
def dateCore : RE := .group 1 (rseq [dig12, .cls dateSepC, dig12, .cls dateSepC, dig24])

/-- `(?:Invoice\s*)?Date[:.\s]*\s*(\d{1,2}[\/\.-]\d{1,2}[\/\.-]\d{2,4})` -/
def patDate1 : Pat :=
  { re := rseq [ropt (rseq [litCI "invoice", ws0]), litCI "date",
      .clsStar colonDotWs false, ws0, dateCore] }

/-- `(?:Invoice\s*)?Date[:.\s]*\s*(\d{1,2}\s+[A-Za-z]+\s+\d{2,4})` -/
def patDate2 : Pat :=
  { re := rseq [ropt (rseq [litCI "invoice", ws0]), litCI "date",
      .clsStar colonDotWs false, ws0,
      .group 1 (rseq [dig12, ws1, plus alphaC, ws1, dig24])] }

/-- `Due\s*Date[:.\s]*\s*(\d{1,2}[\/\.-]\d{1,2}[\/\.-]\d{2,4})` -/
def patDueDate1 : Pat :=
  { re := rseq [litCI "due", ws0, litCI "date", .clsStar colonDotWs false, ws0, dateCore] }

/-- `Payment\s*Due[:.\s]*\s*(\d{1,2}[\/\.-]\d{1,2}[\/\.-]\d{2,4})` -/
def patDueDate2 : Pat :=
  { re := rseq [litCI "payment", ws0, litCI "due", .clsStar colonDotWs false, ws0, dateCore] }

/-- `P\.?O\.?\s*(?:Number|No|#)?[:.\s]*\s*([A-Za-z0-9-]+)` -/
def patPO1 : Pat :=
  { re := rseq [litCI "p", ropt (lit "."), litCI "o", ropt (lit "."), ws0,
      ropt (ralt [litCI "number", litCI "no", lit "#"]),
      .clsStar colonDotWs false, ws0, .group 1 (plus alnumDash)] }

/-- `Purchase\s*Order\s*(?:Number|No|#)?[:.\s]*\s*([A-Za-z0-9-]+)` -/
def patPO2 : Pat :=
  { re := rseq [litCI "purchase", ws0, litCI "order", ws0,
      ropt (ralt [litCI "number", litCI "no", lit "#"]),
      .clsStar colonDotWs false, ws0, .group 1 (plus alnumDash)] }

/-- `(?:Total|Amount\s*Due|Balance\s*Due)` -/
def totalAmountHead : RE :=
  ralt [litCI "total", rseq [litCI "amount", ws0, litCI "due"],
        rseq [litCI "balance", ws0, litCI "due"]]

/-- `[:.\s]*\s*\$?\s*` -/
def sepDollar : RE := rseq [.clsStar colonDotWs false, ws0, ropt (lit "$"), ws0]

/-- `(?:Total|Amount\s*Due|Balance\s*Due)[:.\s]*\s*\$?\s*(\d+[,\d]*\.\d+)` -/
def patTotalAmount1 : Pat :=
  { re := rseq [totalAmountHead, sepDollar,
      .group 1 (rseq [plus digC, .clsStar commaDigit false, lit ".", plus digC])] }

/-- `(?:Total|Amount\s*Due|Balance\s*Due)[:.\s]*\s*\$?\s*(\d+[,\d]*)` -/
def patTotalAmount2 : Pat :=
  { re := rseq [totalAmountHead, sepDollar,
      .group 1 (rseq [plus digC, .clsStar commaDigit false])] }

/-- Header pattern 1 (line 209):
`(Item|Description|Product)[\s\t]+(Qty|Quantity)[\s\t]+(Price|Rate|Unit\s*Price)[\s\t]+(Amount|Total)` -/
def patHeader1 : Pat :=
  { re := rseq [.group 1 (ralt [litCI "item", litCI "description", litCI "product"]), ws1,
      .group 2 (ralt [litCI "qty", litCI "quantity"]), ws1,
      .group 3 (ralt [litCI "price", litCI "rate", rseq [litCI "unit", ws0, litCI "price"]]), ws1,
      .group 4 (ralt [litCI "amount", litCI "total"])] }

/-- Header pattern 2 (line 210):
`(Description|Item|Product)[\s\t]+(Quantity|Qty)[\s\t]+(Unit\s*Price|Price|Rate)[\s\t]+(Line\s*Total|Total|Amount)` -/
def patHeader2 : Pat :=
  { re := rseq [.group 1 (ralt [litCI "description", litCI "item", litCI "product"]), ws1,
      .group 2 (ralt [litCI "quantity", litCI "qty"]), ws1,
      .group 3 (ralt [rseq [litCI "unit", ws0, litCI "price"], litCI "price", litCI "rate"]), ws1,
      .group 4 (ralt [rseq [litCI "line", ws0, litCI "total"], litCI "total", litCI "amount"])] }

/-- End-of-table signature (line 231): `(Sub)?Total|Tax|Discount|Balance` -/
def patEndSig : Pat :=
  { re := ralt [.seq (ropt (.group 1 (litCI "sub"))) (litCI "total"),
      litCI "tax", litCI "discount", litCI "balance"] }

/-- Item pattern 1 (line 251):
`([A-Za-z0-9\s\-\(\)]+)[\s\t]+(\d+)[\s\t]+[€$]?([\d.,]+)[\s\t]+[€$]?([\d.,]+)` -/
def patItem1 : Pat :=
  { re := rseq [.group 1 (plus classA), ws1, .group 2 (plus digC), ws1,
      ropt (.cls euroDollar), .group 3 (plus digitDotComma), ws1,
      ropt (.cls euroDollar), .group 4 (plus digitDotComma)] }

/-- Item pattern 2 (line 253):
`([A-Za-z0-9\s\-\(\)]+)[\s\t]+(\d+)[\s\t]+€([\d.,]+)[\s\t]+€([\d.,]+)` -/
def patItem2 : Pat :=
  { re := rseq [.group 1 (plus classA), ws1, .group 2 (plus digC), ws1,
      lit "€", .group 3 (plus digitDotComma), ws1,
      lit "€", .group 4 (plus digitDotComma)] }

/-- Item pattern 3 (line 255):
`([A-Za-z0-9\s\-\(\)]+?)[\s\t]{2,}(\d+)[\s\t]{2,}[€$]?([\d.,]+)[\s\t]{2,}[€$]?([\d.,]+)` -/
def patItem3 : Pat :=
  { re := rseq [.group 1 (plusL classA), ws2, .group 2 (plus digC), ws2,
      ropt (.cls euroDollar), .group 3 (plus digitDotComma), ws2,
      ropt (.cls euroDollar), .group 4 (plus digitDotComma)] }

/-- Item pattern 4 (line 257, also `extract_line_items` pattern 1):
`^([A-Za-z0-9\s\-\(\)/&]+?)[\s\t]{1,}(\d+)[\s\t]{1,}[€$]?([\d.,]+)[\s\t]{1,}[€$]?([\d.,]+)$` -/
def patItem4 : Pat :=
  { re := rseq [.group 1 (plusL classB), ws1, .group 2 (plus digC), ws1,
      ropt (.cls euroDollar), .group 3 (plus digitDotComma), ws1,
      ropt (.cls euroDollar), .group 4 (plus digitDotComma)],
    anchorStart := true, anchorEnd := true }

/-- Item pattern 5 (line 259, also `extract_line_items` pattern 2):
`^([A-Za-z0-9\s\-\(\)/&]+)\s+(\d+)\s+[€$]?([\d.,]+)\s+[€$]?([\d.,]+)$` -/
def patItem5 : Pat :=
  { re := rseq [.group 1 (plus classB), ws1, .group 2 (plus digC), ws1,
      ropt (.cls euroDollar), .group 3 (plus digitDotComma), ws1,
      ropt (.cls euroDollar), .group 4 (plus digitDotComma)],
    anchorStart := true, anchorEnd := true }

/-- Item pattern 6 (line 261, also `extract_line_items` pattern 3):
`^(.*?)\s{2,}(\d+)\s{2,}[€$]?([\d.,]+)\s{2,}[€$]?([\d.,]+)$` -/
def patItem6 : Pat :=
  { re := rseq [.group 1 (.clsStar anyNotNL true), ws2, .group 2 (plus digC), ws2,
      ropt (.cls euroDollar), .group 3 (plus digitDotComma), ws2,
      ropt (.cls euroDollar), .group 4 (plus digitDotComma)],
    anchorStart := true, anchorEnd := true }

/-- The inline item-pattern cascade (lines 249–262), in source order. -/
def item_patterns : List Pat :=
  [patItem1, patItem2, patItem3, patItem4, patItem5, patItem6]

/-- The `extract_line_items` cascade (lines 32–41); used with `re.match`,
which the `anchorStart` flags of these patterns already capture. -/
def eli_item_patterns : List Pat := [patItem4, patItem5, patItem6]

/-- `Sub[\s\-]?total[:.\s]*\s*\$?\s*([\d.,]+)` -/
def patSubtotal : Pat :=
  { re := rseq [litCI "sub", ropt (.cls wsDash), litCI "total", sepDollar,
      .group 1 (plus digitDotComma)] }

/-- `(?:Tax|VAT|GST)[:.\s]*\s*\$?\s*([\d.,]+)` -/
def patTax : Pat :=
  { re := rseq [ralt [litCI "tax", litCI "vat", litCI "gst"], sepDollar,
      .group 1 (plus digitDotComma)] }

/-- `(?:Shipping|Freight|Delivery)[:.\s]*\s*\$?\s*([\d.,]+)` -/
def patShipping : Pat :=
  { re := rseq [ralt [litCI "shipping", litCI "freight", litCI "delivery"], sepDollar,
      .group 1 (plus digitDotComma)] }

/-- `Discount[:.\s]*\s*\$?\s*([\d.,]+)` -/
def patDiscount : Pat :=
  { re := rseq [litCI "discount", sepDollar, .group 1 (plus digitDotComma)] }

/-- `(?:Total|Balance\s*Due)[:.\s]*\s*\$?\s*([\d.,]+)` -/
def patTotalSec : Pat :=
  { re := rseq [ralt [litCI "total", rseq [litCI "balance", ws0, litCI "due"]], sepDollar,
      .group 1 (plus digitDotComma)] }

/-! ### Data model -/

/-- One row of the parsed item table (a Python dict with these keys). -/
structure LineItem where
  description : List Char
  quantity : Nat
  unit_price : Frac
  total : Frac
deriving DecidableEq, Repr

/-- The strings appended to `result["validation"]["warnings"]`; each
constructor carries the values interpolated into the source's f-string. -/
inductive Warning where
  | insufficientText
  | totalAmountConvertFailed (value : List Char)
  | totalsConvertFailed (field : String) (value : List Char)
  | errorExtractingItems (value : List Char)
  | itemTotalMismatch (itemsTotal invoiceTotal : Frac)
  | dateUnusual (dateStr : List Char)
  | dateUnparseable (dateStr : List Char)
deriving DecidableEq, Repr

/-- The `app_logger.warning` messages of the two line-item parsing paths
(the inline loop of `parse_invoice_text` and `extract_line_items`).  Debug
and info logging, and logger warnings that merely duplicate a `Warning`
entry, are not tracked. -/
inductive LogMsg where
  | invalidQuantity (line : List Char)
  | couldNotParseDecimal (value : List Char)
  | calcDiscrepancy (calculated given : Frac)
  | errorProcessingLine (line : List Char)
  | couldNotExtractItem (line : List Char)
deriving DecidableEq, Repr

/-- `result["metadata"]` — a sparse dict; `none` models an absent key. -/
structure Metadata where
  invoice_no : Option (List Char) := none
  date : Option (List Char) := none
  due_date : Option (List Char) := none
  po_number : Option (List Char) := none
  total_amount : Option Frac := none
deriving DecidableEq, Repr

/-- `result["totals"]` — a sparse dict; `none` models an absent key. -/
structure Totals where
  subtotal : Option Frac := none
  tax : Option Frac := none
  shipping : Option Frac := none
  discount : Option Frac := none
  total : Option Frac := none
deriving DecidableEq, Repr

/-- `result["validation"]`. -/
structure Validation where
  overall_confidence : Frac
  warnings : List Warning
  status : String
deriving DecidableEq, Repr

/-- The dict returned by `parse_invoice_text`, plus the tracked logger
side-channel (`log`, not part of the Python return value). -/
structure InvoiceResult where
  vendor_name : String
  vendor_confidence : Frac
  metadata : Metadata
  items : List LineItem
  totals : Totals
  validation : Validation
  log : List LogMsg
deriving DecidableEq, Repr

/-! ### `extract_line_items` (lines 16–109; dead code: nothing calls it) -/

/-- `parse_decimal` (lines 66–73, local to `extract_line_items`): remove
`€`, `$` and spaces, turn every comma into a point, then `float`. -/
def parse_decimal (value : List Char) : Option Frac :=
  pyFloat? (replCommaDot (((value.filter (fun c => c != '€')).filter
    (fun c => c != '$')).filter (fun c => c != ' ')))

/-- One pattern attempt of `extract_line_items` (lines 51–102): quantity or
price parse failures log and fall through to the next cascade pattern; on
success, a discrepancy of `round(quantity * unit_price, 2)` against the
given total beyond `0.02` logs a warning but the item is kept.  (The broad
`except` of line 100 is unreachable in this model: no other statement
raises.) -/
def eliTryPatterns : List Pat → List Char → Option LineItem × List LogMsg
  | [], _ => (none, [])
  | p :: ps, line =>
      match reSearch p line with
      | none => eliTryPatterns ps line
      | some g =>
          match pyInt? (pyStrip (grp g 2)) with
          | none =>
              let rest := eliTryPatterns ps line
              (rest.1, .invalidQuantity line :: rest.2)
          | some quantity =>
              let up := parse_decimal (grp g 3)
              let tp := parse_decimal (grp g 4)
              let lg1 : List LogMsg :=
                if up.isNone then [.couldNotParseDecimal (grp g 3)] else []
              let lg2 : List LogMsg :=
                if tp.isNone then [.couldNotParseDecimal (grp g 4)] else []
              match up, tp with
              | some u, some t =>
                  let calcTot := (Frac.mul (Frac.ofNat quantity) u).round2
                  let disc : List LogMsg :=
                    if (fr 2 100).blt ((calcTot.sub t).absF) then [.calcDiscrepancy calcTot t]
                    else []
                  (some ⟨pyStrip (grp g 1), quantity, u, t⟩, disc)
              | _, _ =>
                  let rest := eliTryPatterns ps line
                  (rest.1, lg1 ++ lg2 ++ rest.2)

/-- One line of `extract_line_items` (lines 45–106): blank lines are
skipped silently; a line matching no pattern logs and is dropped. -/
def eliLineStep (raw : List Char) : Option LineItem × List LogMsg :=
  let line := pyStrip raw
  if line = [] then (none, [])
  else
    let r := eliTryPatterns eli_item_patterns line
    match r.1 with
    | some it => (some it, r.2)
    | none => (none, r.2 ++ [.couldNotExtractItem line])

def extractLineItemsAux (lines : List (List Char)) :
    Nat → Nat → List LineItem → List LogMsg → List LineItem × List LogMsg
  | 0, _, acc, lg => (acc, lg)
  | fuel + 1, i, acc, lg =>
      let r := eliLineStep (lines.getD i [])
      match r.1 with
      | some it => extractLineItemsAux lines fuel (i + 1) (acc ++ [it]) (lg ++ r.2)
      | none => extractLineItemsAux lines fuel (i + 1) acc (lg ++ r.2)

/-- `extract_line_items(lines, start_line, end_line, app_logger)`: the loop
`for i in range(start_line, end_line)` over `eliLineStep`. -/
def extract_line_items (lines : List (List Char)) (start_line end_line : Nat) :
    List LineItem × List LogMsg :=
  extractLineItemsAux lines (end_line - start_line) start_line [] []

/-! ### `parse_invoice_text` (lines 111–393) -/

/-- Lines 124–134: vendor resolution.  `vendor_classifier` models the
optional `VendorClassifier.predict` (applied to `text[:500]`);
`fuzzyExtractOne` models `process.extractOne(first_lines,
list(VENDOR_DATABASE.keys()))`, returning a best vendor name and an integer
score 0–100 which the source divides by `100.0`. -/
def resolveVendor (text : List Char)
    (vendor_classifier : Option (String → String × Frac))
    (fuzzyExtractOne : String → String × Nat) : String × Frac :=
  match vendor_classifier with
  | some clf => clf (String.mk (text.take 500))
  | none =>
      let first_lines := pyJoinLines ((pySplitCh '\n' text).take 5)
      let m := fuzzyExtractOne (String.mk first_lines)
      (m.1, (Frac.ofNat m.2).div (Frac.ofNat 100))

/-- Try a field's pattern list in order; first match wins, value is
`match.group(1).strip()` (lines 180–185). -/
def extractField (pats : List Pat) (text : List Char) : Option (List Char) :=
  (firstSearch pats text).map (fun g => pyStrip (grp g 1))

/-- Lines 187–194: the captured `total_amount` text is stripped of commas
and coerced with `float`; on `ValueError` a warning is appended and the
stored value falls back to `0.0` (the key is still set). -/
def convertTotalAmount (v : List Char) : Frac × List Warning :=
  match pyFloat? (stripCommas v) with
  | some q => (q, [])
  | none => (Frac.ofNat 0, [.totalAmountConvertFailed (stripCommas v)])

/-- Result of the metadata loop. -/
structure MetaOut where
  md : Metadata
  warnings : List Warning
deriving DecidableEq, Repr

def invoice_no_patterns : List Pat := [patInvoiceNo1, patInvoiceNo2]
def date_patterns : List Pat := [patDate1, patDate2]
def due_date_patterns : List Pat := [patDueDate1, patDueDate2]
def po_number_patterns : List Pat := [patPO1, patPO2]
def total_amount_patterns : List Pat := [patTotalAmount1, patTotalAmount2]

/-- The metadata extraction loop (lines 164–197), fields in dict order. -/
def extractMetadata (text : List Char) : MetaOut :=
  let inv := extractField invoice_no_patterns text
  let dt := extractField date_patterns text
  let dd := extractField due_date_patterns text
  let po := extractField po_number_patterns text
  match extractField total_amount_patterns text with
  | none => ⟨⟨inv, dt, dd, po, none⟩, []⟩
  | some v =>
      let cv := convertTotalAmount v
      ⟨⟨inv, dt, dd, po, some cv.1⟩, cv.2⟩

/-- Lines 218–225: index of the first line matching either header
pattern. -/
def findHeaderIdx (lines : List (List Char)) : Option Nat :=
  lines.findIdx? (fun l => reTest patHeader1 l || reTest patHeader2 l)

/-- Lines 229–239: the end of the item table — the first line index in
`range(start_line + 1, len(lines))` matching the
subtotal/tax/discount/balance signature, else `min(start_line + 15,
len(lines))`. -/
def findEndLine (lines : List (List Char)) (start_line : Nat) : Nat :=
  match (List.range' (start_line + 1) (lines.length - (start_line + 1))).find?
      (fun i => reTest patEndSig (lines.getD i [])) with
  | some i => i
  | none => min (start_line + 15) lines.length

/-- The located item table `(start, end)`, `none` when no header line is
found (§4.2's `locate_item_table`). -/
def locate_item_table (lines : List (List Char)) : Option (Nat × Nat) :=
  match findHeaderIdx lines with
  | some h => some (h + 1, findEndLine lines (h + 1))
  | none => none

/-- Outcome of one line of the inline item loop. -/
inductive LineOutcome where
  | blank
  | noMatch (stripped : List Char)
  | item (it : LineItem)
  | convFail (value : List Char)
deriving DecidableEq, Repr

/-- Lines 243–278, body for one line: strip, skip if empty, try the six
patterns in order (`re.search`), first match wins; then build the item with
`int(qty)` (group 2 is `\d+`, never fails) and
`float(price.replace(",", "."))` — an unparseable price or total raises
`ValueError` (`convFail`), which is not caught at this level. -/
def itemLineStep (raw : List Char) : LineOutcome :=
  let line := pyStrip raw
  if line = [] then .blank
  else
    match firstSearch item_patterns line with
    | none => .noMatch line
    | some g =>
        let qty := evalDigits (grp g 2)
        match pyFloat? (replCommaDot (grp g 3)) with
        | none => .convFail (replCommaDot (grp g 3))
        | some up =>
            match pyFloat? (replCommaDot (grp g 4)) with
            | none => .convFail (replCommaDot (grp g 4))
            | some tp => .item ⟨pyStrip (grp g 1), qty, up, tp⟩

/-- State of the inline item loop: collected items, tracked log entries,
and the pending exception payload if a conversion raised. -/
structure ItemsOut where
  items : List LineItem
  log : List LogMsg
  err : Option (List Char)
deriving DecidableEq, Repr

def runItemLinesAux (lines : List (List Char)) :
    Nat → Nat → List LineItem → List LogMsg → ItemsOut
  | 0, _, acc, lg => ⟨acc, lg, none⟩
  | fuel + 1, i, acc, lg =>
      match itemLineStep (lines.getD i []) with
      | .blank => runItemLinesAux lines fuel (i + 1) acc lg
      | .noMatch l => runItemLinesAux lines fuel (i + 1) acc (lg ++ [.couldNotExtractItem l])
      | .item it => runItemLinesAux lines fuel (i + 1) (acc ++ [it]) lg
      | .convFail v => ⟨acc, lg, some v⟩

/-- The inline item loop `for i in range(start_line, end_line)` (lines
243–282); an uncaught `ValueError` aborts the remaining iterations. -/
def runItemLines (lines : List (List Char)) (s e : Nat) : ItemsOut :=
  runItemLinesAux lines (e - s) s [] []

/-- Lines 298–307: a captured totals-section value is stripped of commas
and coerced with `float`; on `ValueError` a warning is appended and the key
is left unset. -/
def convertTotalsField (field : String) (v : List Char) : Option Frac × List Warning :=
  match pyFloat? (stripCommas v) with
  | some q => (some q, [])
  | none => (none, [.totalsConvertFailed field v])

def extractTotalsField (p : Pat) (field : String) (text : List Char) :
    Option Frac × List Warning :=
  match reSearch p text with
  | none => (none, [])
  | some g => convertTotalsField field (grp g 1)

/-- Result of the totals-section scan. -/
structure TotalsOut where
  totals : Totals
  warnings : List Warning
deriving DecidableEq, Repr

/-- Lines 288–307: independent full-text scan for the five totals fields,
in dict order. -/
def extractTotals (text : List Char) : TotalsOut :=
  let st := extractTotalsField patSubtotal "subtotal" text
  let tx := extractTotalsField patTax "tax" text
  let sh := extractTotalsField patShipping "shipping" text
  let di := extractTotalsField patDiscount "discount" text
  let t5 := extractTotalsField patTotalSec "total" text
  ⟨⟨st.1, tx.1, sh.1, di.1, t5.1⟩, st.2 ++ tx.2 ++ sh.2 ++ di.2 ++ t5.2⟩

/-- Result of the whole `try` block (lines 204–311). -/
structure ItemsTotalsOut where
  items : List LineItem
  totals : Totals
  warnings : List Warning
  log : List LogMsg
deriving DecidableEq, Repr

/-- Lines 204–311: the `try` around table location, the inline item loop
and the totals extraction.  The only statements inside that can raise are
the `float` conversions of the item loop; when one raises, the `except`
(lines 309–311) appends an `Error extracting items: …` warning, keeps the
items collected so far, and the totals extraction — inside the same `try`,
after the loop — never runs, leaving `result["totals"]` empty. -/
def extractItemsAndTotals (text : List Char) (lines : List (List Char)) : ItemsTotalsOut :=
  match findHeaderIdx lines with
  | none =>
      let t := extractTotals text
      ⟨[], t.totals, t.warnings, []⟩
  | some h =>
      let s := h + 1
      let e := findEndLine lines s
      let io1 := runItemLines lines s e
      match io1.err with
      | some v => ⟨io1.items, {}, [.errorExtractingItems v], io1.log⟩
      | none =>
          let t := extractTotals text
          ⟨io1.items, t.totals, t.warnings, io1.log⟩

/-- Lines 317–324: one point per present essential field. -/
def essentialScore (md : Metadata) : Nat :=
  (if md.invoice_no.isSome then 1 else 0) +
  (if md.date.isSome then 1 else 0) +
  (if md.total_amount.isSome then 1 else 0)

/-- `sum(item["total"] for item in result["items"])`. -/
def itemsSum (items : List LineItem) : Frac :=
  items.foldl (fun acc it => acc.add it.total) (Frac.ofNat 0)

/-- Lines 326–339: items-vs-total cross-check, evaluated only when the item
list is non-empty and `totals["total"]` is set; within `0.02` it scores a
point, otherwise it appends a mismatch warning carrying both values. -/
def crossCheck (items : List LineItem) (totals : Totals) : Nat × List Warning :=
  match items, totals.total with
  | _ :: _, some t =>
      let s := itemsSum items
      if ((s.sub t).absF).ble (fr 2 100) then (1, [])
      else (0, [.itemTotalMismatch s t])
  | _, _ => (0, [])

/-- Lines 341–370: date plausibility — parse against the format list, then
require `parsed ≤ now` and `parsed ≥ now - 365 days` (day granularity). -/
def dateCheck (md : Metadata) (today : Nat) : Nat × List Warning :=
  match md.date with
  | none => (0, [])
  | some ds =>
      match strptimeAny? ds with
      | some p => if p ≤ today ∧ today ≤ p + 365 then (1, []) else (0, [.dateUnusual ds])
      | none => (0, [.dateUnparseable ds])

/-- Line 373: `max_score = 3 + (1 if result["items"] else 0)`. -/
def maxScore (items : List LineItem) : Nat := 3 + (if items.isEmpty then 0 else 1)

/-- Lines 374–377: the confidence aggregation. -/
def aggregateConfidence (validation_score max_score : Nat) (confidence : Frac) : Frac :=
  if max_score > 0 then
    ((Frac.ofNat validation_score).div (Frac.ofNat max_score)).mul confidence
  else confidence.mul (fr 5 10)

/-- `config.ML_CONFIDENCE_THRESHOLD = 0.8`. -/
def ML_CONFIDENCE_THRESHOLD : Frac := fr 8 10

/-- Lines 382–391: terminal status classification. -/
def statusOf (overall : Frac) (warnings : List Warning) : String :=
  if ML_CONFIDENCE_THRESHOLD.ble overall ∧ warnings = [] then "Auto-Approved"
  else if (fr 6 10).ble overall then "Needs Review"
  else "Manual Processing Required"

/-- `parse_invoice_text(text, vendor_classifier)` (lines 111–393), with the
modelled external dependencies `fuzzyExtractOne` (fuzzywuzzy) and `today`
(`datetime.now()`, day granularity). -/
def parse_invoice_text (text : String)
    (vendor_classifier : Option (String → String × Frac))
    (fuzzyExtractOne : String → String × Nat)
    (today : Nat) : InvoiceResult :=
  let cs := text.data
  let vc := resolveVendor cs vendor_classifier fuzzyExtractOne
  if cs = [] ∨ cs.length < 50 then
    { vendor_name := vc.1, vendor_confidence := vc.2,
      metadata := {}, items := [], totals := {},
      validation := { overall_confidence := Frac.ofNat 0,
                      warnings := [.insufficientText],
                      status := "Manual Processing Required" },
      log := [] }
  else
    let mo := extractMetadata cs
    let lines := pySplitCh '\n' cs
    let it := extractItemsAndTotals cs lines
    let cc := crossCheck it.items it.totals
    let dc := dateCheck mo.md today
    let validation_score := essentialScore mo.md + cc.1 + dc.1
    let overall := aggregateConfidence validation_score (maxScore it.items) vc.2
    let warnings := mo.warnings ++ it.warnings ++ cc.2 ++ dc.2
    { vendor_name := vc.1, vendor_confidence := vc.2,
      metadata := mo.md, items := it.items, totals := it.totals,
      validation := { overall_confidence := overall, warnings := warnings,
                      status := statusOf overall warnings },
      log := it.log }

/-! ### Specification-side definitions used to state claims -/

/-- Specification-side restatement of the inline item loop (used to settle
claim C5): per-line outcomes are processed left to right, collecting items
and `Could not extract item` log entries, until the first conversion
failure, which aborts the loop keeping only the prefix collected so far. -/
def runSpecOutcomes : List LineOutcome → ItemsOut
  | [] => ⟨[], [], none⟩
  | o :: os =>
      match o with
      | .blank => runSpecOutcomes os
      | .noMatch l =>
          let r := runSpecOutcomes os
          ⟨r.items, .couldNotExtractItem l :: r.log, r.err⟩
      | .item it =>
          let r := runSpecOutcomes os
          ⟨it :: r.items, r.log, r.err⟩
      | .convFail v => ⟨[], [], some v⟩

/-- Is a log entry a price-calculation-discrepancy warning? -/
def isCalcDisc : LogMsg → Bool
  | .calcDiscrepancy _ _ => true
  | _ => false

/-- The discrepancy condition of `extract_line_items` line 84:
`abs(round(quantity * unit_price, 2) - total_price) > 0.02`. -/
def discrepant (it : LineItem) : Bool :=
  (fr 2 100).blt (((((Frac.ofNat it.quantity).mul it.unit_price).round2).sub it.total).absF)

/-! ### Helper lemmas about `Frac` -/

theorem Frac.den_pos (a : Frac) : 0 < a.den := Nat.succ_pos _

theorem Frac.den_add (a b : Frac) : (a.add b).den = a.den * b.den := by
  have h : 0 < a.den * b.den := Nat.mul_pos a.den_pos b.den_pos
  simp only [Frac.add, Frac.den] at *
  omega

theorem Frac.den_sub (a b : Frac) : (a.sub b).den = a.den * b.den := by
  have h : 0 < a.den * b.den := Nat.mul_pos a.den_pos b.den_pos
  simp only [Frac.sub, Frac.den] at *
  omega

theorem Frac.den_mul (a b : Frac) : (a.mul b).den = a.den * b.den := by
  have h : 0 < a.den * b.den := Nat.mul_pos a.den_pos b.den_pos
  simp only [Frac.mul, Frac.den] at *
  omega

theorem Frac.den_cast_ne_zero (a : Frac) : ((a.den : ℚ)) ≠ 0 := by
  exact_mod_cast a.den_pos.ne'

theorem Frac.toRat_add (a b : Frac) : (a.add b).toRat = a.toRat + b.toRat := by
  have ha := a.den_cast_ne_zero
  have hb := b.den_cast_ne_zero
  unfold Frac.toRat
  rw [show ((a.add b).num : ℚ) = ((a.num * b.den + b.num * a.den : Int) : ℚ) from rfl,
    Frac.den_add]
  push_cast
  field_simp
  try ring

theorem Frac.toRat_sub (a b : Frac) : (a.sub b).toRat = a.toRat - b.toRat := by
  have ha := a.den_cast_ne_zero
  have hb := b.den_cast_ne_zero
  unfold Frac.toRat
  rw [show ((a.sub b).num : ℚ) = ((a.num * b.den - b.num * a.den : Int) : ℚ) from rfl,
    Frac.den_sub]
  push_cast
  field_simp
  try ring

theorem Frac.toRat_mul (a b : Frac) : (a.mul b).toRat = a.toRat * b.toRat := by
  have ha := a.den_cast_ne_zero
  have hb := b.den_cast_ne_zero
  unfold Frac.toRat
  rw [show ((a.mul b).num : ℚ) = ((a.num * b.num : Int) : ℚ) from rfl, Frac.den_mul]
  push_cast
  field_simp
  try ring

theorem Frac.toRat_ofNat (n : Nat) : (Frac.ofNat n).toRat = (n : ℚ) := by
  unfold Frac.ofNat Frac.toRat Frac.den
  norm_num

theorem Frac.toRat_absF (a : Frac) : a.absF.toRat = |a.toRat| := by
  have ha := a.den_cast_ne_zero
  unfold Frac.absF Frac.toRat
  rw [show (Frac.den ⟨(a.num.natAbs : Int), a.dpred⟩) = a.den from rfl]
  rw [abs_div]
  congr 1
  · have h1 : ((a.num.natAbs : Int) : ℚ) = ((|a.num| : Int) : ℚ) := by
      rw [Int.abs_eq_natAbs]
    rw [h1, Int.cast_abs]
  · rw [abs_of_pos]
    exact_mod_cast a.den_pos

theorem Frac.den_div (a b : Frac) (hb : b.num ≠ 0) :
    (a.div b).den = a.den * b.num.natAbs := by
  have h : 0 < a.den * b.num.natAbs :=
    Nat.mul_pos a.den_pos (Int.natAbs_pos.mpr hb)
  simp only [Frac.div, Frac.den] at *
  omega

theorem Frac.toRat_div (a b : Frac) (hb : b.num ≠ 0) :
    (a.div b).toRat = a.toRat / b.toRat := by
  have ha := a.den_cast_ne_zero
  have hbd := b.den_cast_ne_zero
  unfold Frac.toRat
  rw [show ((a.div b).num : ℚ) = ((a.num * b.den * b.num.sign : Int) : ℚ) from rfl,
    Frac.den_div a b hb]
  rcases lt_or_gt_of_ne hb with hneg | hpos
  · have hq : ((b.num : ℚ)) < 0 := by exact_mod_cast hneg
    have hs : b.num.sign = -1 := Int.sign_eq_neg_one_of_neg hneg
    rw [hs]
    push_cast
    rw [Nat.cast_natAbs, Int.cast_abs, abs_of_neg hq]
    field_simp
    try ring
  · have hq : (0 : ℚ) < (b.num : ℚ) := by exact_mod_cast hpos
    have hs : b.num.sign = 1 := Int.sign_eq_one_of_pos hpos
    rw [hs]
    push_cast
    rw [Nat.cast_natAbs, Int.cast_abs, abs_of_pos hq]
    field_simp
    try ring

theorem Frac.ble_iff (a b : Frac) : a.ble b = true ↔ a.toRat ≤ b.toRat := by
  have ha : (0 : ℚ) < (a.den : ℚ) := by exact_mod_cast a.den_pos
  have hb : (0 : ℚ) < (b.den : ℚ) := by exact_mod_cast b.den_pos
  unfold Frac.ble Frac.toRat
  rw [decide_eq_true_iff, div_le_div_iff₀ ha hb]
  constructor
  · intro h
    exact_mod_cast h
  · intro h
    exact_mod_cast h

theorem Frac.blt_iff (a b : Frac) : a.blt b = true ↔ a.toRat < b.toRat := by
  have ha : (0 : ℚ) < (a.den : ℚ) := by exact_mod_cast a.den_pos
  have hb : (0 : ℚ) < (b.den : ℚ) := by exact_mod_cast b.den_pos
  unfold Frac.blt Frac.toRat
  rw [decide_eq_true_iff, div_lt_div_iff₀ ha hb]
  constructor
  · intro h
    exact_mod_cast h
  · intro h
    exact_mod_cast h


theorem toRat_fr (n : Int) (d : Nat) (hd : 0 < d) : (fr n d).toRat = (n : ℚ) / (d : ℚ) := by
  have h : d - 1 + 1 = d := by omega
  simp [fr, Frac.toRat, Frac.den, h]

theorem aggregate_toRat (s m : Nat) (c : Frac) (hm : 0 < m) :
    (aggregateConfidence s m c).toRat = (s : ℚ) / (m : ℚ) * c.toRat := by
  unfold aggregateConfidence
  rw [if_pos hm, Frac.toRat_mul, Frac.toRat_div]
  · rw [Frac.toRat_ofNat, Frac.toRat_ofNat]
  · show (Frac.ofNat m).num ≠ 0
    simp only [Frac.ofNat]
    omega

/-! ### Unfolding lemmas for `parse_invoice_text` -/

theorem parse_short (text : String) (cls : Option (String → String × Frac))
    (fz : String → String × Nat) (today : Nat)
    (h : text.data = [] ∨ text.data.length < 50) :
    parse_invoice_text text cls fz today =
      { vendor_name := (resolveVendor text.data cls fz).1,
        vendor_confidence := (resolveVendor text.data cls fz).2,
        metadata := {}, items := [], totals := {},
        validation := { overall_confidence := Frac.ofNat 0,
                        warnings := [.insufficientText],
                        status := "Manual Processing Required" },
        log := [] } := by
  unfold parse_invoice_text
  rw [if_pos h]

theorem not_short_of_len (text : String) (h : 50 ≤ text.data.length) :
    ¬(text.data = [] ∨ text.data.length < 50) := by
  rintro (he | hl)
  · rw [he] at h
    simp at h
  · omega

theorem parse_long (text : String) (cls : Option (String → String × Frac))
    (fz : String → String × Nat) (today : Nat)
    (h : 50 ≤ text.data.length) :
    parse_invoice_text text cls fz today =
      (let cs := text.data
       let vc := resolveVendor cs cls fz
       let mo := extractMetadata cs
       let it := extractItemsAndTotals cs (pySplitCh '\n' cs)
       let cc := crossCheck it.items it.totals
       let dc := dateCheck mo.md today
       let validation_score := essentialScore mo.md + cc.1 + dc.1
       let overall := aggregateConfidence validation_score (maxScore it.items) vc.2
       let warnings := mo.warnings ++ it.warnings ++ cc.2 ++ dc.2
       { vendor_name := vc.1, vendor_confidence := vc.2,
         metadata := mo.md, items := it.items, totals := it.totals,
         validation := { overall_confidence := overall, warnings := warnings,
                         status := statusOf overall warnings },
         log := it.log }) := by
  unfold parse_invoice_text
  rw [if_neg (not_short_of_len text h)]

/-! ### Claim theorems -/

/-- Claim C2 (confirmed): for every input text that is empty or shorter
than 50 characters, `parse_invoice_text` skips all field, item and totals
extraction and all validation checks, returning a record with status
`Manual Processing Required`, exactly the single insufficient-text warning,
empty metadata, items and totals, and `overall_confidence = 0`, which is
strictly below `0.5`. -/
theorem C2_short_text_short_circuit (text : String)
    (cls : Option (String → String × Frac)) (fz : String → String × Nat)
    (today : Nat) (h : text.data.length < 50) :
    parse_invoice_text text cls fz today =
      { vendor_name := (resolveVendor text.data cls fz).1,
        vendor_confidence := (resolveVendor text.data cls fz).2,
        metadata := {}, items := [], totals := {},
        validation := { overall_confidence := Frac.ofNat 0,
                        warnings := [.insufficientText],
                        status := "Manual Processing Required" },
        log := [] } ∧
    (Frac.ofNat 0).toRat < 1/2 := by
  refine ⟨parse_short text cls fz today (Or.inr h), ?_⟩
  rw [Frac.toRat_ofNat]
  norm_num

/-- Witness for C2 at the empty text. -/
theorem C2_short_text_short_circuit_witness :
    parse_invoice_text "" none (fun _ => ("Acme Corp", 37)) 700000 =
      { vendor_name := (resolveVendor "".data none (fun _ => ("Acme Corp", 37))).1,
        vendor_confidence := (resolveVendor "".data none (fun _ => ("Acme Corp", 37))).2,
        metadata := {}, items := [], totals := {},
        validation := { overall_confidence := Frac.ofNat 0,
                        warnings := [.insufficientText],
                        status := "Manual Processing Required" },
        log := [] } ∧
    (Frac.ofNat 0).toRat < 1/2 :=
  C2_short_text_short_circuit "" none (fun _ => ("Acme Corp", 37)) 700000 (by decide)

/-- Claim C1 (code bug): evaluation of `parse_invoice_text` at the failing
input — a 51-character invoice carrying an invoice number, a parseable
in-window date and a total, with no item table, under a vendor confidence
of `1.0` — yields `overall_confidence = 4/3 > 1`: the date-plausibility
point makes `validation_score = 4` while `max_score = 3`, so the claimed
`[0,1]` bound (and the code comment calling `max_score` the "Maximum
possible validation score") is violated. -/
theorem C1_overall_confidence_exceeds_one :
    (parse_invoice_text "Invoice No: INV-001\nDate: 10/01/2026\nTotal: 250.00"
        (some (fun _ => ("VendorX", Frac.ofNat 1))) (fun _ => ("", 0))
        (toOrdinal 2026 10 12)).validation.overall_confidence.toRat = 4/3 ∧
    (1 : ℚ) < 4/3 := by
  have h : (parse_invoice_text "Invoice No: INV-001\nDate: 10/01/2026\nTotal: 250.00"
      (some (fun _ => ("VendorX", Frac.ofNat 1))) (fun _ => ("", 0))
      (toOrdinal 2026 10 12)).validation.overall_confidence = ⟨4, 2⟩ := by decide
  rw [h]
  constructor
  · norm_num [Frac.toRat, Frac.den]
  · norm_num

/-- Claim C10 (confirmed): vendor resolution runs before the
insufficient-text guard, for every text (including the empty one): with a
classifier the vendor is `predict(text[:500])`, otherwise the fuzzy match
of the first five lines with its 0–100 score divided by 100. -/
theorem C10_vendor_resolution (text : String) (fz : String → String × Nat)
    (today : Nat) :
    (∀ clf : String → String × Frac,
      (parse_invoice_text text (some clf) fz today).vendor_name =
          (clf (String.mk (text.data.take 500))).1 ∧
      (parse_invoice_text text (some clf) fz today).vendor_confidence =
          (clf (String.mk (text.data.take 500))).2) ∧
    ((parse_invoice_text text none fz today).vendor_name =
        (fz (String.mk (pyJoinLines ((pySplitCh '\n' text.data).take 5)))).1 ∧
      (parse_invoice_text text none fz today).vendor_confidence =
        (Frac.ofNat (fz (String.mk (pyJoinLines ((pySplitCh '\n' text.data).take 5)))).2).div
          (Frac.ofNat 100) ∧
      (parse_invoice_text text none fz today).vendor_confidence.toRat =
        ((fz (String.mk (pyJoinLines ((pySplitCh '\n' text.data).take 5)))).2 : ℚ) / 100) := by
  have hv : ∀ cls : Option (String → String × Frac),
      (parse_invoice_text text cls fz today).vendor_name = (resolveVendor text.data cls fz).1 ∧
      (parse_invoice_text text cls fz today).vendor_confidence =
        (resolveVendor text.data cls fz).2 := by
    intro cls
    unfold parse_invoice_text
    by_cases h : text.data = [] ∨ text.data.length < 50
    · rw [if_pos h]
      exact ⟨rfl, rfl⟩
    · rw [if_neg h]
      exact ⟨rfl, rfl⟩
  refine ⟨fun clf => ?_, ?_, ?_, ?_⟩
  · rcases hv (some clf) with ⟨h1, h2⟩
    exact ⟨h1, h2⟩
  · exact (hv none).1
  · exact (hv none).2
  · rw [(hv none).2]
    show ((Frac.ofNat (fz (String.mk (pyJoinLines ((pySplitCh '\n' text.data).take 5)))).2).div
      (Frac.ofNat 100)).toRat = _
    rw [Frac.toRat_div _ _ (by simp only [Frac.ofNat]; omega), Frac.toRat_ofNat,
      Frac.toRat_ofNat]
    norm_num

theorem maxScore_pos (items : List LineItem) : 0 < maxScore items := by
  unfold maxScore
  omega

/-- Claim C6 (confirmed): whenever the parse reaches validation (length at
least 50), `overall_confidence = (validation_score / max_score) *
vendor_confidence` with `max_score = 3 + (1 if items non-empty else 0)`;
and the (unreachable) `max_score == 0` branch of the aggregation assigns
`vendor_confidence * 0.5`. -/
theorem C6_confidence_formula (text : String)
    (cls : Option (String → String × Frac)) (fz : String → String × Nat)
    (today : Nat) (h : 50 ≤ text.data.length) :
    ((parse_invoice_text text cls fz today).validation.overall_confidence.toRat =
      ((essentialScore (extractMetadata text.data).md +
        (crossCheck (extractItemsAndTotals text.data (pySplitCh '\n' text.data)).items
          (extractItemsAndTotals text.data (pySplitCh '\n' text.data)).totals).1 +
        (dateCheck (extractMetadata text.data).md today).1 : ℕ) : ℚ) /
        ((maxScore (extractItemsAndTotals text.data (pySplitCh '\n' text.data)).items : ℕ) : ℚ) *
        (parse_invoice_text text cls fz today).vendor_confidence.toRat) ∧
    (maxScore (extractItemsAndTotals text.data (pySplitCh '\n' text.data)).items =
      3 + (if (extractItemsAndTotals text.data (pySplitCh '\n' text.data)).items = []
           then 0 else 1)) ∧
    (∀ (s : ℕ) (c : Frac), (aggregateConfidence s 0 c).toRat = c.toRat * (1/2)) := by
  refine ⟨?_, ?_, ?_⟩
  · rw [parse_long text cls fz today h]
    exact aggregate_toRat _ _ _ (maxScore_pos _)
  · unfold maxScore
    cases (extractItemsAndTotals text.data (pySplitCh '\n' text.data)).items <;> simp
  · intro s c
    unfold aggregateConfidence
    rw [if_neg (by omega), Frac.toRat_mul, toRat_fr 5 10 (by omega)]
    norm_num

/-- Witness for C6 at a concrete 51-character invoice text. -/
theorem C6_confidence_formula_witness :
    ((parse_invoice_text "Invoice No: INV-001\nDate: 10/01/2026\nTotal: 250.00"
        (some (fun _ => ("VendorX", Frac.ofNat 1))) (fun _ => ("", 0))
        739901).validation.overall_confidence.toRat =
      ((essentialScore (extractMetadata "Invoice No: INV-001\nDate: 10/01/2026\nTotal: 250.00".data).md +
        (crossCheck (extractItemsAndTotals "Invoice No: INV-001\nDate: 10/01/2026\nTotal: 250.00".data
            (pySplitCh '\n' "Invoice No: INV-001\nDate: 10/01/2026\nTotal: 250.00".data)).items
          (extractItemsAndTotals "Invoice No: INV-001\nDate: 10/01/2026\nTotal: 250.00".data
            (pySplitCh '\n' "Invoice No: INV-001\nDate: 10/01/2026\nTotal: 250.00".data)).totals).1 +
        (dateCheck (extractMetadata "Invoice No: INV-001\nDate: 10/01/2026\nTotal: 250.00".data).md
          739901).1 : ℕ) : ℚ) /
        ((maxScore (extractItemsAndTotals "Invoice No: INV-001\nDate: 10/01/2026\nTotal: 250.00".data
            (pySplitCh '\n' "Invoice No: INV-001\nDate: 10/01/2026\nTotal: 250.00".data)).items : ℕ) : ℚ) *
        (parse_invoice_text "Invoice No: INV-001\nDate: 10/01/2026\nTotal: 250.00"
          (some (fun _ => ("VendorX", Frac.ofNat 1))) (fun _ => ("", 0))
          739901).vendor_confidence.toRat) ∧
    (maxScore (extractItemsAndTotals "Invoice No: INV-001\nDate: 10/01/2026\nTotal: 250.00".data
        (pySplitCh '\n' "Invoice No: INV-001\nDate: 10/01/2026\nTotal: 250.00".data)).items =
      3 + (if (extractItemsAndTotals "Invoice No: INV-001\nDate: 10/01/2026\nTotal: 250.00".data
          (pySplitCh '\n' "Invoice No: INV-001\nDate: 10/01/2026\nTotal: 250.00".data)).items = []
           then 0 else 1)) ∧
    (∀ (s : ℕ) (c : Frac), (aggregateConfidence s 0 c).toRat = c.toRat * (1/2)) :=
  C6_confidence_formula "Invoice No: INV-001\nDate: 10/01/2026\nTotal: 250.00"
    (some (fun _ => ("VendorX", Frac.ofNat 1))) (fun _ => ("", 0)) 739901 (by decide)

/-- The Boolean tolerance test of the cross-check agrees with the rational
statement `|sum - total| ≤ 0.02`. -/
theorem crossTol_iff (s t : Frac) :
    ((s.sub t).absF).ble (fr 2 100) = true ↔ |s.toRat - t.toRat| ≤ 2/100 := by
  rw [Frac.ble_iff, Frac.toRat_absF, Frac.toRat_sub, toRat_fr 2 100 (by omega)]
  norm_num

/-- Claim C7 (confirmed): the items-vs-total cross-check is evaluated
exactly when items are present and `totals.total` is set; it scores one
point iff `|sum(item.total) - totals.total| ≤ 0.02` and otherwise appends
exactly one warning carrying both values and no point; its warnings are
appended to the result's warning list and the parse continues through the
date check to return a full record. -/
theorem C7_items_total_cross_check (items : List LineItem) (totals : Totals) :
    ((items = [] ∨ totals.total = none) → crossCheck items totals = (0, [])) ∧
    (∀ t : Frac, totals.total = some t → items ≠ [] →
      ((|(itemsSum items).toRat - t.toRat| ≤ 2/100 →
          crossCheck items totals = (1, [])) ∧
       (¬(|(itemsSum items).toRat - t.toRat| ≤ 2/100) →
          crossCheck items totals = (0, [.itemTotalMismatch (itemsSum items) t])))) ∧
    (∀ (text : String) (cls : Option (String → String × Frac))
        (fz : String → String × Nat) (today : Nat), 50 ≤ text.data.length →
      (parse_invoice_text text cls fz today).validation.warnings =
        (extractMetadata text.data).warnings ++
        (extractItemsAndTotals text.data (pySplitCh '\n' text.data)).warnings ++
        (crossCheck (extractItemsAndTotals text.data (pySplitCh '\n' text.data)).items
           (extractItemsAndTotals text.data (pySplitCh '\n' text.data)).totals).2 ++
        (dateCheck (extractMetadata text.data).md today).2) := by
  refine ⟨?_, ?_, ?_⟩
  · intro h
    cases items with
    | nil => rfl
    | cons a as =>
        rcases h with he | hn
        · exact absurd he (by simp)
        · unfold crossCheck
          rw [hn]
  · intro t ht hne
    cases items with
    | nil => exact absurd rfl hne
    | cons a as =>
        constructor
        · intro htol
          unfold crossCheck
          rw [ht]
          dsimp only
          rw [if_pos ((crossTol_iff (itemsSum (a :: as)) t).mpr htol)]
        · intro htol
          unfold crossCheck
          rw [ht]
          dsimp only
          rw [if_neg (fun hb => htol ((crossTol_iff (itemsSum (a :: as)) t).mp hb))]
  · intro text cls fz today h
    rw [parse_long text cls fz today h]

/-- Witness for C7: the spec's scenario-B numbers (items summing to
1145.00 against a total of 1195.00 yield the mismatch warning and no
point; agreement within tolerance yields the point; no items yield no
check). -/
theorem C7_items_total_cross_check_witness :
    crossCheck [⟨"Office Desk".data, 1, fr 114500 100, fr 114500 100⟩]
        { total := some (fr 119500 100) } =
      (0, [.itemTotalMismatch (itemsSum [⟨"Office Desk".data, 1, fr 114500 100, fr 114500 100⟩])
            (fr 119500 100)]) ∧
    crossCheck [⟨"Office Desk".data, 1, fr 114500 100, fr 114500 100⟩]
        { total := some (fr 114500 100) } = (1, []) ∧
    crossCheck [] { total := some (fr 500 100) } = (0, []) := by
  refine ⟨?_, ?_, ?_⟩
  · refine ((C7_items_total_cross_check _ _).2.1 _ rfl (by simp)).2 ?_
    simp only [itemsSum, List.foldl, Frac.ofNat, Frac.add, fr, Frac.den, Frac.toRat]
    norm_num
  · refine ((C7_items_total_cross_check _ _).2.1 _ rfl (by simp)).1 ?_
    simp only [itemsSum, List.foldl, Frac.ofNat, Frac.add, fr, Frac.den, Frac.toRat]
    norm_num
  · exact (C7_items_total_cross_check _ _).1 (Or.inl rfl)

/-- Claim C9 (confirmed): a failed float coercion of the captured
`total_amount` text appends a warning and stores the fallback `0.0` (the
key is present), while a failed coercion of a totals-section capture
appends a warning and leaves that key unset; and the metadata loop always
stores the converted `total_amount` value when the capture succeeded. -/
theorem C9_conversion_failure_asymmetry (v : List Char)
    (hfail : pyFloat? (stripCommas v) = none) :
    convertTotalAmount v = (Frac.ofNat 0, [.totalAmountConvertFailed (stripCommas v)]) ∧
    (∀ field, convertTotalsField field v = (none, [.totalsConvertFailed field v])) ∧
    (∀ (text w : List Char), extractField total_amount_patterns text = some w →
      (extractMetadata text).md.total_amount = some (convertTotalAmount w).1 ∧
      (extractMetadata text).warnings = (convertTotalAmount w).2) := by
  refine ⟨?_, ?_, ?_⟩
  · unfold convertTotalAmount
    rw [hfail]
  · intro field
    unfold convertTotalsField
    rw [hfail]
  · intro text w hw
    unfold extractMetadata
    rw [hw]
    exact ⟨rfl, rfl⟩

/-- Witness for C9 at the unconvertible capture `1.2.3` (two decimal
points survive comma-stripping, so `float` raises) and at a text whose
`total_amount` capture is `5.00`. -/
theorem C9_conversion_failure_asymmetry_witness :
    convertTotalAmount "1.2.3".data =
      (Frac.ofNat 0, [.totalAmountConvertFailed (stripCommas "1.2.3".data)]) ∧
    convertTotalsField "total" "1.2.3".data =
      (none, [.totalsConvertFailed "total" "1.2.3".data]) ∧
    (extractMetadata "Total: 5.00".data).md.total_amount =
      some (convertTotalAmount "5.00".data).1 := by
  have h := C9_conversion_failure_asymmetry "1.2.3".data (by decide)
  exact ⟨h.1, h.2.1 "total", (h.2.2 "Total: 5.00".data "5.00".data (by decide)).1⟩

/-! ### Character and list lemmas for claim C3 -/

theorem isDigit_ne (c : Char) (h : c.isDigit = true) (d : Char) (hd : d.isDigit = false) :
    (c != d) = true := by
  rcases eq_or_ne c d with rfl | hne
  · rw [h] at hd
    exact absurd hd (by decide)
  · simp [bne_iff_ne, hne]

theorem commaToDot_digit (c : Char) (h : c.isDigit = true) : commaToDot c = c := by
  have hne : (c == ',') = false := by
    rcases eq_or_ne c ',' with rfl | hne
    · exact absurd h (by decide)
    · simp [hne]
  unfold commaToDot
  rw [hne]
  simp

theorem clean_digits (ds : List Char) (hd : ∀ c ∈ ds, c.isDigit = true) :
    replCommaDot (((ds.filter (fun c => c != '€')).filter (fun c => c != '$')).filter
      (fun c => c != ' ')) = ds := by
  have h1 : ds.filter (fun c => c != '€') = ds :=
    List.filter_eq_self.mpr (fun c hc => isDigit_ne c (hd c hc) '€' (by decide))
  have h2 : ds.filter (fun c => c != '$') = ds :=
    List.filter_eq_self.mpr (fun c hc => isDigit_ne c (hd c hc) '$' (by decide))
  have h3 : ds.filter (fun c => c != ' ') = ds :=
    List.filter_eq_self.mpr (fun c hc => isDigit_ne c (hd c hc) ' ' (by decide))
  rw [h1, h2, h3]
  unfold replCommaDot
  have h4 : ds.map commaToDot = ds.map id :=
    List.map_congr_left (fun c hc => commaToDot_digit c (hd c hc))
  rw [h4, List.map_id]

theorem clean_glyph (g : List Char) (hg : ∀ c ∈ g, c = '€' ∨ c = '$' ∨ c = ' ') :
    ((g.filter (fun c => c != '€')).filter (fun c => c != '$')).filter
      (fun c => c != ' ') = [] := by
  induction g with
  | nil => rfl
  | cons c t ih =>
      have ht : ∀ x ∈ t, x = '€' ∨ x = '$' ∨ x = ' ' := fun x hx => hg x (by simp [hx])
      rcases hg c (by simp) with h1 | h1 | h1 <;> subst h1 <;>
        simp [List.filter_cons, show (('€' : Char) != '€') = false from rfl,
          show (('$' : Char) != '€') = true from rfl,
          show (('$' : Char) != '$') = false from rfl,
          show ((' ' : Char) != '€') = true from rfl,
          show ((' ' : Char) != '$') = true from rfl,
          show ((' ' : Char) != ' ') = false from rfl,
          ih ht] <;>
        (intro a ha h2 h3
         rcases ht a ha with h | h | h
         · exact h
         · exact absurd h h3
         · exact absurd h h2)

theorem takeWhile_digits_dot (ds1 ds2 : List Char) (hd1 : ∀ c ∈ ds1, c.isDigit = true) :
    (ds1 ++ '.' :: ds2).takeWhile (fun c => c != '.') = ds1 := by
  induction ds1 with
  | nil => simp [List.takeWhile_cons, show (('.' : Char) != '.') = false from rfl]
  | cons a t ih =>
      have hne : (a != '.') = true := isDigit_ne a (hd1 a (by simp)) '.' (by decide)
      simp [List.takeWhile_cons, hne, ih (fun c hc => hd1 c (by simp [hc]))]

theorem dropWhile_digits_dot (ds1 ds2 : List Char) (hd1 : ∀ c ∈ ds1, c.isDigit = true) :
    (ds1 ++ '.' :: ds2).dropWhile (fun c => c != '.') = '.' :: ds2 := by
  induction ds1 with
  | nil => simp [List.dropWhile_cons, show (('.' : Char) != '.') = false from rfl]
  | cons a t ih =>
      have hne : (a != '.') = true := isDigit_ne a (hd1 a (by simp)) '.' (by decide)
      simp [List.dropWhile_cons, hne, ih (fun c hc => hd1 c (by simp [hc]))]

theorem pyFloat_digits_dot (ds1 ds2 : List Char) (h1 : ds1 ≠ [])
    (hd1 : ∀ c ∈ ds1, c.isDigit = true) (hd2 : ∀ c ∈ ds2, c.isDigit = true) :
    pyFloat? (ds1 ++ '.' :: ds2) =
      some (fr (evalDigits ds1 * 10 ^ ds2.length + evalDigits ds2) (10 ^ ds2.length)) := by
  have hall : (ds1 ++ '.' :: ds2).all (fun c => c.isDigit || c == '.') = true := by
    rw [List.all_eq_true]
    intro c hc
    rcases List.mem_append.mp hc with hc1 | hc2
    · simp [hd1 c hc1]
    · rcases List.mem_cons.mp hc2 with rfl | hc3
      · simp
      · simp [hd2 c hc3]
  have hcount : (ds1 ++ '.' :: ds2).count '.' ≤ 1 := by
    rw [List.count_append]
    have hc1 : ds1.count '.' = 0 := by
      rw [List.count_eq_zero]
      intro hmem
      exact absurd (hd1 '.' hmem) (by decide)
    have hc2 : ds2.count '.' = 0 := by
      rw [List.count_eq_zero]
      intro hmem
      exact absurd (hd2 '.' hmem) (by decide)
    rw [hc1, List.count_cons_self, hc2]
  have hany : (ds1 ++ '.' :: ds2).any Char.isDigit = true := by
    rw [List.any_eq_true]
    rcases ds1 with _ | ⟨a, t⟩
    · exact absurd rfl h1
    · exact ⟨a, by simp, hd1 a (by simp)⟩
  unfold pyFloat?
  rw [if_pos ⟨hall, hcount, hany⟩]
  rw [takeWhile_digits_dot ds1 ds2 hd1, dropWhile_digits_dot ds1 ds2 hd1]
  simp only [List.drop_succ_cons, List.drop_zero, fr, Option.some.injEq, Frac.mk.injEq]
  refine ⟨?_, trivial⟩
  push_cast
  ring

/-- Claim C3 (counterexample): on the valid grouped decimal string
`1,234.56` the source's normalization (`replace(",", ".")`, no grouping
strip) produces `1.234.56`, whose `float` conversion fails — both in
`parse_decimal` and in the inline item parser — instead of yielding the
value `1234.56` of the canonical form, which `float` does parse. -/
theorem C3_counterexample :
    parse_decimal "1,234.56".data = none ∧
    pyFloat? (replCommaDot "1,234.56".data) = none ∧
    pyFloat? "1234.56".data = some (fr 123456 100) ∧
    (fr 123456 100).toRat = 1234.56 := by
  refine ⟨by decide, by decide, by decide, ?_⟩
  rw [toRat_fr 123456 100 (by omega)]
  norm_num

/-- Claim C3 (amended): for decimal strings with no thousands-grouping —
optional currency glyphs / spaces, a nonempty digit part, a single `.` or
`,` separator and a digit fraction — `parse_decimal` and the inline
`float(x.replace(",", "."))` both yield exactly the value of the canonical
`.`-separated form, namely `ds1 + ds2 / 10^|ds2|`. -/
theorem C3_amended (glyph ds1 ds2 : List Char) (sep : Char)
    (hg : ∀ c ∈ glyph, c = '€' ∨ c = '$' ∨ c = ' ')
    (hsep : sep = '.' ∨ sep = ',')
    (h1 : ds1 ≠ []) (hd1 : ∀ c ∈ ds1, c.isDigit = true)
    (hd2 : ∀ c ∈ ds2, c.isDigit = true) :
    parse_decimal (glyph ++ ds1 ++ sep :: ds2) = pyFloat? (ds1 ++ '.' :: ds2) ∧
    pyFloat? (replCommaDot (ds1 ++ sep :: ds2)) = pyFloat? (ds1 ++ '.' :: ds2) ∧
    pyFloat? (ds1 ++ '.' :: ds2) =
      some (fr (evalDigits ds1 * 10 ^ ds2.length + evalDigits ds2) (10 ^ ds2.length)) ∧
    (fr (evalDigits ds1 * 10 ^ ds2.length + evalDigits ds2) (10 ^ ds2.length)).toRat =
      (evalDigits ds1 : ℚ) + (evalDigits ds2 : ℚ) / ((10 ^ ds2.length : ℕ) : ℚ) := by
  have hsepmap : commaToDot sep = '.' := by
    rcases hsep with rfl | rfl <;> rfl
  have hmap : replCommaDot (ds1 ++ sep :: ds2) = ds1 ++ '.' :: ds2 := by
    unfold replCommaDot
    rw [List.map_append, List.map_cons]
    rw [show ds1.map commaToDot = ds1.map id from
        List.map_congr_left (fun c hc => commaToDot_digit c (hd1 c hc)),
      show ds2.map commaToDot = ds2.map id from
        List.map_congr_left (fun c hc => commaToDot_digit c (hd2 c hc)),
      List.map_id, List.map_id, hsepmap]
  refine ⟨?_, ?_, ?_, ?_⟩
  · unfold parse_decimal
    rw [List.append_assoc]
    rw [List.filter_append, List.filter_append, List.filter_append]
    rw [show ((glyph.filter (fun c => c != '€')).filter (fun c => c != '$')).filter
          (fun c => c != ' ') = [] from clean_glyph glyph hg]
    rw [List.nil_append]
    have hsd : ∀ c ∈ ds1 ++ sep :: ds2,
        ((c != '€') = true ∧ (c != '$') = true ∧ (c != ' ') = true) := by
      intro c hc
      rcases List.mem_append.mp hc with hc1 | hc2
      · exact ⟨isDigit_ne c (hd1 c hc1) '€' (by decide),
          isDigit_ne c (hd1 c hc1) '$' (by decide),
          isDigit_ne c (hd1 c hc1) ' ' (by decide)⟩
      · rcases List.mem_cons.mp hc2 with rfl | hc3
        · rcases hsep with rfl | rfl <;> exact ⟨by decide, by decide, by decide⟩
        · exact ⟨isDigit_ne c (hd2 c hc3) '€' (by decide),
            isDigit_ne c (hd2 c hc3) '$' (by decide),
            isDigit_ne c (hd2 c hc3) ' ' (by decide)⟩
    rw [List.filter_eq_self.mpr (fun c hc => (hsd c hc).1)]
    rw [List.filter_eq_self.mpr (fun c hc => (hsd c hc).2.1)]
    rw [List.filter_eq_self.mpr (fun c hc => (hsd c hc).2.2)]
    rw [hmap]
  · rw [hmap]
  · exact pyFloat_digits_dot ds1 ds2 h1 hd1 hd2
  · rw [toRat_fr _ _ (Nat.pos_pow_of_pos _ (by omega))]
    have hz : ((10 ^ ds2.length : ℕ) : ℚ) ≠ 0 := by positivity
    push_cast
    field_simp
    try ring

/-- Witness for C3's amended statement at `€12,34`. -/
theorem C3_amended_witness :
    parse_decimal (['€'] ++ ['1', '2'] ++ ',' :: ['3', '4']) =
      pyFloat? (['1', '2'] ++ '.' :: ['3', '4']) ∧
    pyFloat? (replCommaDot (['1', '2'] ++ ',' :: ['3', '4'])) =
      pyFloat? (['1', '2'] ++ '.' :: ['3', '4']) ∧
    pyFloat? (['1', '2'] ++ '.' :: ['3', '4']) =
      some (fr (evalDigits ['1', '2'] * 10 ^ (['3', '4'] : List Char).length +
        evalDigits ['3', '4']) (10 ^ (['3', '4'] : List Char).length)) ∧
    (fr (evalDigits ['1', '2'] * 10 ^ (['3', '4'] : List Char).length +
        evalDigits ['3', '4']) (10 ^ (['3', '4'] : List Char).length)).toRat =
      (evalDigits ['1', '2'] : ℚ) +
        (evalDigits ['3', '4'] : ℚ) / ((10 ^ (['3', '4'] : List Char).length : ℕ) : ℚ) :=
  C3_amended ['€'] ['1', '2'] ['3', '4'] ',' (by decide) (Or.inr rfl) (by decide)
    (by decide) (by decide)

/-! ### `find?` over `range'` (for claim C4) -/

theorem find?_range'_some (p : Nat → Bool) : ∀ (n s j : Nat),
    (List.range' s n).find? p = some j →
    s ≤ j ∧ j < s + n ∧ p j = true ∧ ∀ k, s ≤ k → k < j → p k = false := by
  intro n
  induction n with
  | zero =>
      intro s j hfind
      simp [List.range'] at hfind
  | succ n ih =>
      intro s j hfind
      rw [show List.range' s (n + 1) = s :: List.range' (s + 1) n from rfl] at hfind
      by_cases hp : p s = true
      · rw [List.find?_cons_of_pos _ hp] at hfind
        obtain rfl : s = j := by simpa using hfind
        exact ⟨le_refl s, by omega, hp, fun k hk1 hk2 => absurd hk1 (by omega)⟩
      · have hpf : p s = false := by
          revert hp
          cases p s <;> simp
        rw [List.find?_cons_of_neg _ (by simp [hpf])] at hfind
        obtain ⟨ih1, ih2, ih3, ih4⟩ := ih (s + 1) j hfind
        refine ⟨by omega, by omega, ih3, ?_⟩
        intro k hk1 hk2
        rcases Nat.eq_or_lt_of_le hk1 with heq | hlt
        · rw [← heq]
          exact hpf
        · exact ih4 k (by omega) hk2

theorem find?_range'_none (p : Nat → Bool) (s n : Nat)
    (h : (List.range' s n).find? p = none) (j : Nat) (h1 : s ≤ j) (h2 : j < s + n) :
    p j = false := by
  have hmem : j ∈ List.range' s n := List.mem_range'_1.mpr ⟨h1, h2⟩
  have hnp := List.find?_eq_none.mp h j hmem
  revert hnp
  cases p j <;> simp

/-- Claim C4 (counterexample): when a totals-signature line stands
immediately after the header (index `h + 1`), the located table end is not
that index: on these three lines the header is line 0 and line 1 matches
the subtotal/total signature, yet the located range is `(1, 2)` — the
end-of-table scan starts only at `start_line + 1 = h + 2`. -/
theorem C4_counterexample :
    locate_item_table ["Item Qty Price Amount".data, "Total: 5.00".data,
      "Total: 6.00".data] = some (1, 2) ∧
    reTest patEndSig (["Item Qty Price Amount".data, "Total: 5.00".data,
      "Total: 6.00".data].getD 1 []) = true :=
  ⟨by decide, by decide⟩

/-- Claim C4 (amended): for every line list whose first header line is at
index `h`, the item range starts at `h + 1`, and its end is the first line
at index `≥ h + 2` (not `h + 1`: the scan skips the line right after the
header) matching the subtotal/tax/discount/balance signature; when no such
line exists the end is `min (start + 15) len`. -/
theorem C4_item_table_bounds (lines : List (List Char)) (h : Nat)
    (hh : findHeaderIdx lines = some h) :
    ∃ e, locate_item_table lines = some (h + 1, e) ∧
      ((h + 2 ≤ e ∧ e < lines.length ∧ reTest patEndSig (lines.getD e []) = true ∧
        (∀ k, h + 2 ≤ k → k < e → reTest patEndSig (lines.getD k []) = false)) ∨
       ((∀ j, h + 2 ≤ j → j < lines.length → reTest patEndSig (lines.getD j []) = false) ∧
        e = min (h + 1 + 15) lines.length)) := by
  refine ⟨findEndLine lines (h + 1), ?_, ?_⟩
  · unfold locate_item_table
    rw [hh]
  · unfold findEndLine
    rcases hfind : (List.range' (h + 1 + 1) (lines.length - (h + 1 + 1))).find?
        (fun i => reTest patEndSig (lines.getD i [])) with _ | j
    · dsimp only
      refine Or.inr ⟨?_, rfl⟩
      intro j hj1 hj2
      have hj := find?_range'_none _ _ _ hfind j (by omega) (by omega)
      simpa using hj
    · dsimp only
      obtain ⟨h1, h2, h3, h4⟩ := find?_range'_some _ _ _ _ hfind
      refine Or.inl ⟨by omega, by omega, by simpa using h3, ?_⟩
      intro k hk1 hk2
      have hk := h4 k (by omega) hk2
      simpa using hk

/-- Witness for C4's amended statement on the counterexample lines. -/
theorem C4_item_table_bounds_witness :
    ∃ e, locate_item_table ["Item Qty Price Amount".data, "Total: 5.00".data,
        "Total: 6.00".data] = some (0 + 1, e) ∧
      ((0 + 2 ≤ e ∧
        e < (["Item Qty Price Amount".data, "Total: 5.00".data,
          "Total: 6.00".data] : List (List Char)).length ∧
        reTest patEndSig (["Item Qty Price Amount".data, "Total: 5.00".data,
          "Total: 6.00".data].getD e []) = true ∧
        (∀ k, 0 + 2 ≤ k → k < e →
          reTest patEndSig (["Item Qty Price Amount".data, "Total: 5.00".data,
            "Total: 6.00".data].getD k []) = false)) ∨
       ((∀ j, 0 + 2 ≤ j →
          j < (["Item Qty Price Amount".data, "Total: 5.00".data,
            "Total: 6.00".data] : List (List Char)).length →
          reTest patEndSig (["Item Qty Price Amount".data, "Total: 5.00".data,
            "Total: 6.00".data].getD j []) = false) ∧
        e = min (0 + 1 + 15) (["Item Qty Price Amount".data, "Total: 5.00".data,
          "Total: 6.00".data] : List (List Char)).length)) :=
  C4_item_table_bounds ["Item Qty Price Amount".data, "Total: 5.00".data,
    "Total: 6.00".data] 0 (by decide)

/-! ### The inline item loop as a fold over line outcomes (claim C5) -/

theorem runSpec_cons_blank (os : List LineOutcome) :
    runSpecOutcomes (.blank :: os) = runSpecOutcomes os := rfl

theorem runSpec_cons_noMatch (l : List Char) (os : List LineOutcome) :
    runSpecOutcomes (.noMatch l :: os) =
      ⟨(runSpecOutcomes os).items, .couldNotExtractItem l :: (runSpecOutcomes os).log,
        (runSpecOutcomes os).err⟩ := rfl

theorem runSpec_cons_item (it : LineItem) (os : List LineOutcome) :
    runSpecOutcomes (.item it :: os) =
      ⟨it :: (runSpecOutcomes os).items, (runSpecOutcomes os).log,
        (runSpecOutcomes os).err⟩ := rfl

theorem runSpec_cons_convFail (v : List Char) (os : List LineOutcome) :
    runSpecOutcomes (.convFail v :: os) = ⟨[], [], some v⟩ := rfl

theorem runItemLinesAux_spec (lines : List (List Char)) : ∀ (fuel i : Nat)
    (acc : List LineItem) (lg : List LogMsg),
    runItemLinesAux lines fuel i acc lg =
      ⟨acc ++ (runSpecOutcomes ((List.range' i fuel).map
          (fun k => itemLineStep (lines.getD k [])))).items,
        lg ++ (runSpecOutcomes ((List.range' i fuel).map
          (fun k => itemLineStep (lines.getD k [])))).log,
        (runSpecOutcomes ((List.range' i fuel).map
          (fun k => itemLineStep (lines.getD k [])))).err⟩ := by
  intro fuel
  induction fuel with
  | zero =>
      intro i acc lg
      simp [runItemLinesAux, runSpecOutcomes, List.range']
  | succ fuel ih =>
      intro i acc lg
      rw [show List.range' i (fuel + 1) = i :: List.range' (i + 1) fuel from rfl,
        List.map_cons]
      unfold runItemLinesAux
      cases hstep : itemLineStep (lines.getD i []) with
      | blank =>
          dsimp only
          rw [ih (i + 1) acc lg]
          rfl
      | noMatch l =>
          dsimp only
          rw [ih (i + 1) acc (lg ++ [LogMsg.couldNotExtractItem l]), runSpec_cons_noMatch]
          simp
      | item it =>
          dsimp only
          rw [ih (i + 1) (acc ++ [it]) lg, runSpec_cons_item]
          simp
      | convFail v =>
          dsimp only
          rw [runSpec_cons_convFail]
          simp

/-- Claim C5 (amended): (i) the inline item loop folds the per-line
outcomes left to right — a line matching no cascade pattern contributes a
`Could not extract item` log entry and no item, and parsing continues with
the remaining lines, while the first price/total conversion failure
(`ValueError`) aborts the loop, keeping only the items collected before it;
(ii) at `parse_invoice_text` level such a failure is caught by the
surrounding `try`, which appends the `Error extracting items` warning,
empties no already-collected items, and skips the totals extraction
entirely (the totals dict stays empty), while the parse still returns a
record.  (The claim's assertion that other cascade patterns are retried on
a conversion failure and that totals extraction still runs is refuted by
`C5_conversion_failure_counterexample`; per-line retrying exists only in
the dead function `extract_line_items`.) -/
theorem C5_line_failure_semantics :
    (∀ (lines : List (List Char)) (s e : Nat),
      runItemLines lines s e =
        runSpecOutcomes ((List.range' s (e - s)).map
          (fun k => itemLineStep (lines.getD k [])))) ∧
    (∀ (text : List Char) (lines : List (List Char)) (h : Nat) (v : List Char),
      findHeaderIdx lines = some h →
      (runItemLines lines (h + 1) (findEndLine lines (h + 1))).err = some v →
      extractItemsAndTotals text lines =
        ⟨(runItemLines lines (h + 1) (findEndLine lines (h + 1))).items, {},
          [.errorExtractingItems v],
          (runItemLines lines (h + 1) (findEndLine lines (h + 1))).log⟩) := by
  constructor
  · intro lines s e
    unfold runItemLines
    rw [runItemLinesAux_spec lines (e - s) s [] []]
    simp
  · intro text lines h v hh herr
    unfold extractItemsAndTotals
    rw [hh]
    dsimp only
    rw [herr]

/-- Claim C5 (counterexample): in this invoice the table range is lines
1–3; line 2 (`Bbb 1 1.2.3 4.00`) matches cascade pattern 1 but its price
fails `float` conversion, and line 3 (`Ccc 1 2.00 2.00`) is perfectly
parseable — yet the returned items stop before line 3, the totals dict is
empty although the standalone totals scan would have extracted
`Subtotal: 9.99` (and `total`), and the `Error extracting items` warning is
appended: the failure voids more than that one line and the totals
extraction does not run, contrary to the claim. -/
theorem C5_conversion_failure_counterexample :
    itemLineStep "Ccc 1 2.00 2.00".data =
      .item ⟨"Ccc".data, 1, ⟨200, 99⟩, ⟨200, 99⟩⟩ ∧
    locate_item_table (pySplitCh '\n'
      "Item Qty Price Amount\nAaa 2 3.00 6.00\nBbb 1 1.2.3 4.00\nCcc 1 2.00 2.00\nSubtotal: 9.99\nTotal: 8.00".data) =
      some (1, 4) ∧
    (parse_invoice_text
        "Item Qty Price Amount\nAaa 2 3.00 6.00\nBbb 1 1.2.3 4.00\nCcc 1 2.00 2.00\nSubtotal: 9.99\nTotal: 8.00"
        (some (fun _ => ("V", Frac.ofNat 1))) (fun _ => ("", 0)) 0).items =
      [⟨"Aaa".data, 2, ⟨300, 99⟩, ⟨600, 99⟩⟩] ∧
    (parse_invoice_text
        "Item Qty Price Amount\nAaa 2 3.00 6.00\nBbb 1 1.2.3 4.00\nCcc 1 2.00 2.00\nSubtotal: 9.99\nTotal: 8.00"
        (some (fun _ => ("V", Frac.ofNat 1))) (fun _ => ("", 0)) 0).totals = {} ∧
    (parse_invoice_text
        "Item Qty Price Amount\nAaa 2 3.00 6.00\nBbb 1 1.2.3 4.00\nCcc 1 2.00 2.00\nSubtotal: 9.99\nTotal: 8.00"
        (some (fun _ => ("V", Frac.ofNat 1))) (fun _ => ("", 0)) 0).validation.warnings =
      [.errorExtractingItems "1.2.3".data] ∧
    (extractTotals
        "Item Qty Price Amount\nAaa 2 3.00 6.00\nBbb 1 1.2.3 4.00\nCcc 1 2.00 2.00\nSubtotal: 9.99\nTotal: 8.00".data).totals.subtotal =
      some ⟨999, 99⟩ := by
  refine ⟨by decide, by decide, by decide, by decide, by decide, by decide⟩

/-- Witness for C5's amended statement on the counterexample invoice. -/
theorem C5_line_failure_semantics_witness :
    runItemLines (pySplitCh '\n'
        "Item Qty Price Amount\nAaa 2 3.00 6.00\nBbb 1 1.2.3 4.00\nCcc 1 2.00 2.00\nSubtotal: 9.99\nTotal: 8.00".data)
        1 4 =
      runSpecOutcomes ((List.range' 1 (4 - 1)).map
        (fun k => itemLineStep ((pySplitCh '\n'
          "Item Qty Price Amount\nAaa 2 3.00 6.00\nBbb 1 1.2.3 4.00\nCcc 1 2.00 2.00\nSubtotal: 9.99\nTotal: 8.00".data).getD
          k []))) ∧
    extractItemsAndTotals
        "Item Qty Price Amount\nAaa 2 3.00 6.00\nBbb 1 1.2.3 4.00\nCcc 1 2.00 2.00\nSubtotal: 9.99\nTotal: 8.00".data
        (pySplitCh '\n'
          "Item Qty Price Amount\nAaa 2 3.00 6.00\nBbb 1 1.2.3 4.00\nCcc 1 2.00 2.00\nSubtotal: 9.99\nTotal: 8.00".data) =
      ⟨(runItemLines (pySplitCh '\n'
          "Item Qty Price Amount\nAaa 2 3.00 6.00\nBbb 1 1.2.3 4.00\nCcc 1 2.00 2.00\nSubtotal: 9.99\nTotal: 8.00".data)
          (0 + 1) (findEndLine (pySplitCh '\n'
          "Item Qty Price Amount\nAaa 2 3.00 6.00\nBbb 1 1.2.3 4.00\nCcc 1 2.00 2.00\nSubtotal: 9.99\nTotal: 8.00".data)
          (0 + 1))).items, {},
        [.errorExtractingItems "1.2.3".data],
        (runItemLines (pySplitCh '\n'
          "Item Qty Price Amount\nAaa 2 3.00 6.00\nBbb 1 1.2.3 4.00\nCcc 1 2.00 2.00\nSubtotal: 9.99\nTotal: 8.00".data)
          (0 + 1) (findEndLine (pySplitCh '\n'
          "Item Qty Price Amount\nAaa 2 3.00 6.00\nBbb 1 1.2.3 4.00\nCcc 1 2.00 2.00\nSubtotal: 9.99\nTotal: 8.00".data)
          (0 + 1))).log⟩ :=
  ⟨C5_line_failure_semantics.1 (pySplitCh '\n'
      "Item Qty Price Amount\nAaa 2 3.00 6.00\nBbb 1 1.2.3 4.00\nCcc 1 2.00 2.00\nSubtotal: 9.99\nTotal: 8.00".data)
      1 4,
   C5_line_failure_semantics.2
      "Item Qty Price Amount\nAaa 2 3.00 6.00\nBbb 1 1.2.3 4.00\nCcc 1 2.00 2.00\nSubtotal: 9.99\nTotal: 8.00".data
      (pySplitCh '\n'
        "Item Qty Price Amount\nAaa 2 3.00 6.00\nBbb 1 1.2.3 4.00\nCcc 1 2.00 2.00\nSubtotal: 9.99\nTotal: 8.00".data)
      0 "1.2.3".data (by decide) (by decide)⟩

/-! ### Where the calculation-discrepancy check lives (claim C8) -/

theorem eliTryPatterns_disc : ∀ (ps : List Pat) (line : List Char)
    (it : LineItem) (lg : List LogMsg),
    eliTryPatterns ps line = (some it, lg) →
    lg.filter isCalcDisc =
      (if discrepant it
       then [LogMsg.calcDiscrepancy (((Frac.ofNat it.quantity).mul it.unit_price).round2)
               it.total]
       else []) := by
  intro ps
  induction ps with
  | nil =>
      intro line it lg h
      exact absurd (congrArg Prod.fst h) (by simp [eliTryPatterns])
  | cons p ps ih =>
      intro line it lg h
      unfold eliTryPatterns at h
      rcases hsr : reSearch p line with _ | g <;> rw [hsr] at h
      · exact ih line it lg h
      · try dsimp only at h
        rcases hqty : pyInt? (pyStrip (grp g 2)) with _ | quantity <;> rw [hqty] at h <;>
          try dsimp only at h
        · have h1 := congrArg Prod.fst h
          have h2 := congrArg Prod.snd h
          simp only at h1 h2
          have hx := ih line it (eliTryPatterns ps line).2 (Prod.ext_iff.mpr ⟨h1, rfl⟩)
          rw [← h2]
          simpa [isCalcDisc] using hx
        · rcases hup : parse_decimal (grp g 3) with _ | u <;>
            rcases htp : parse_decimal (grp g 4) with _ | t <;>
            rw [hup, htp] at h <;> try dsimp only at h
          · have h1 := congrArg Prod.fst h
            have h2 := congrArg Prod.snd h
            simp only at h1 h2
            have hx := ih line it (eliTryPatterns ps line).2 (Prod.ext_iff.mpr ⟨h1, rfl⟩)
            rw [← h2]
            simpa [isCalcDisc] using hx
          · have h1 := congrArg Prod.fst h
            have h2 := congrArg Prod.snd h
            simp only at h1 h2
            have hx := ih line it (eliTryPatterns ps line).2 (Prod.ext_iff.mpr ⟨h1, rfl⟩)
            rw [← h2]
            simpa [isCalcDisc] using hx
          · have h1 := congrArg Prod.fst h
            have h2 := congrArg Prod.snd h
            simp only at h1 h2
            have hx := ih line it (eliTryPatterns ps line).2 (Prod.ext_iff.mpr ⟨h1, rfl⟩)
            rw [← h2]
            simpa [isCalcDisc] using hx
          · have h1 := congrArg Prod.fst h
            have h2 := congrArg Prod.snd h
            simp only at h1 h2
            obtain rfl : it = ⟨pyStrip (grp g 1), quantity, u, t⟩ := (Option.some.inj h1).symm
            rw [← h2]
            unfold discrepant
            dsimp only
            by_cases hd : (fr 2 100).blt
                ((((Frac.ofNat quantity).mul u).round2.sub t).absF) = true
            · rw [if_pos hd]
              simp [isCalcDisc]
            · rw [if_neg hd]
              simp

theorem eliLineStep_disc (raw : List Char) (it : LineItem) (lg : List LogMsg)
    (h : eliLineStep raw = (some it, lg)) :
    lg.filter isCalcDisc =
      (if discrepant it
       then [LogMsg.calcDiscrepancy (((Frac.ofNat it.quantity).mul it.unit_price).round2)
               it.total]
       else []) := by
  unfold eliLineStep at h
  by_cases hb : pyStrip raw = []
  · rw [if_pos hb] at h
    exact absurd (congrArg Prod.fst h) (by simp)
  · rw [if_neg hb] at h
    try dsimp only at h
    rcases hr : (eliTryPatterns eli_item_patterns (pyStrip raw)).1 with _ | it2 <;>
      rw [hr] at h <;> try dsimp only at h
    · exact absurd (congrArg Prod.fst h) (by simp)
    · have h1 := congrArg Prod.fst h
      have h2 := congrArg Prod.snd h
      simp only at h1 h2
      obtain rfl : it2 = it := Option.some.inj h1
      rw [← h2]
      exact eliTryPatterns_disc eli_item_patterns (pyStrip raw) it2 _
        (Prod.ext_iff.mpr ⟨hr, rfl⟩)

theorem runItemLinesAux_log_noDisc (lines : List (List Char)) : ∀ (fuel i : Nat)
    (acc : List LineItem) (lg : List LogMsg),
    (runItemLinesAux lines fuel i acc lg).log.filter isCalcDisc =
      lg.filter isCalcDisc := by
  intro fuel
  induction fuel with
  | zero =>
      intro i acc lg
      rfl
  | succ fuel ih =>
      intro i acc lg
      unfold runItemLinesAux
      cases hstep : itemLineStep (lines.getD i []) with
      | blank => exact ih (i + 1) acc lg
      | noMatch l =>
          rw [ih (i + 1) acc (lg ++ [LogMsg.couldNotExtractItem l])]
          simp [isCalcDisc]
      | item it => exact ih (i + 1) (acc ++ [it]) lg
      | convFail v => rfl

/-- Claim C8 (amended): the `round(quantity * unit_price, 2)` discrepancy
check exists only in the dead function `extract_line_items`: there, a line
yielding an item logs exactly one calculation-discrepancy warning — carrying
the recomputed and given totals — iff the discrepancy exceeds `0.02`, and
the item is kept in the output either way; the inline item parser that
`parse_invoice_text` actually runs performs no such check, so a parse never
produces a calculation-discrepancy message for any input. -/
theorem C8_discrepancy_check_location :
    (∀ (raw : List Char) (it : LineItem) (lg : List LogMsg),
      eliLineStep raw = (some it, lg) →
      lg.filter isCalcDisc =
        (if discrepant it
         then [LogMsg.calcDiscrepancy (((Frac.ofNat it.quantity).mul it.unit_price).round2)
                 it.total]
         else [])) ∧
    (∀ (lines : List (List Char)) (fuel i : Nat) (acc : List LineItem)
        (lg lgs : List LogMsg) (it : LineItem),
      eliLineStep (lines.getD i []) = (some it, lgs) →
      extractLineItemsAux lines (fuel + 1) i acc lg =
        extractLineItemsAux lines fuel (i + 1) (acc ++ [it]) (lg ++ lgs)) ∧
    (∀ (text : String) (cls : Option (String → String × Frac))
        (fz : String → String × Nat) (today : Nat),
      (parse_invoice_text text cls fz today).log.filter isCalcDisc = []) := by
  refine ⟨eliLineStep_disc, ?_, ?_⟩
  · intro lines fuel i acc lg lgs it h
    have step : extractLineItemsAux lines (fuel + 1) i acc lg =
        (match (eliLineStep (lines.getD i [])).1 with
         | some it2 => extractLineItemsAux lines fuel (i + 1) (acc ++ [it2])
             (lg ++ (eliLineStep (lines.getD i [])).2)
         | none => extractLineItemsAux lines fuel (i + 1) acc
             (lg ++ (eliLineStep (lines.getD i [])).2)) := rfl
    rw [step, h]
  · intro text cls fz today
    by_cases h : text.data = [] ∨ text.data.length < 50
    · rw [parse_short text cls fz today h]
      rfl
    · have hlen : 50 ≤ text.data.length := by
        rcases Nat.lt_or_ge text.data.length 50 with hl | hg
        · exact absurd (Or.inr hl) h
        · exact hg
      rw [parse_long text cls fz today hlen]
      show (extractItemsAndTotals text.data
        (pySplitCh '\n' text.data)).log.filter isCalcDisc = []
      unfold extractItemsAndTotals
      rcases hh : findHeaderIdx (pySplitCh '\n' text.data) with _ | hidx
      · rfl
      · dsimp only
        rcases herr : (runItemLines (pySplitCh '\n' text.data) (hidx + 1)
            (findEndLine (pySplitCh '\n' text.data) (hidx + 1))).err with _ | v
        all_goals
          try dsimp only
          exact runItemLinesAux_log_noDisc (pySplitCh '\n' text.data) _ _ [] []

/-- Witness for C8's amended statement: `extract_line_items`' line step on
`Mouse 2 25.00 90.00` (a 40.00 discrepancy) logs exactly the one warning
and keeps the item; the loop appends the item; and the parse of a whole
invoice containing that line yields no discrepancy message. -/
theorem C8_discrepancy_check_location_witness :
    ((LogMsg.calcDiscrepancy ⟨5000, 99⟩ ⟨9000, 99⟩ ::
        ([] : List LogMsg)).filter isCalcDisc =
      (if discrepant ⟨"Mouse".data, 2, ⟨2500, 99⟩, ⟨9000, 99⟩⟩
       then [LogMsg.calcDiscrepancy
               (((Frac.ofNat (2 : Nat)).mul (⟨2500, 99⟩ : Frac)).round2) (⟨9000, 99⟩ : Frac)]
       else [])) ∧
    extractLineItemsAux ["Mouse 2 25.00 90.00".data] 1 0 [] [] =
      extractLineItemsAux ["Mouse 2 25.00 90.00".data] 0 1
        ([] ++ [⟨"Mouse".data, 2, ⟨2500, 99⟩, ⟨9000, 99⟩⟩])
        ([] ++ [LogMsg.calcDiscrepancy ⟨5000, 99⟩ ⟨9000, 99⟩]) ∧
    (parse_invoice_text "Item Qty Price Amount\nMouse 2 25.00 90.00\nTotal: 90.00"
        (some (fun _ => ("V", Frac.ofNat 1))) (fun _ => ("", 0)) 0).log.filter
      isCalcDisc = [] :=
  ⟨C8_discrepancy_check_location.1 "Mouse 2 25.00 90.00".data
      ⟨"Mouse".data, 2, ⟨2500, 99⟩, ⟨9000, 99⟩⟩
      [LogMsg.calcDiscrepancy ⟨5000, 99⟩ ⟨9000, 99⟩] (by decide),
   C8_discrepancy_check_location.2.1 ["Mouse 2 25.00 90.00".data] 0 0 [] []
      [LogMsg.calcDiscrepancy ⟨5000, 99⟩ ⟨9000, 99⟩]
      ⟨"Mouse".data, 2, ⟨2500, 99⟩, ⟨9000, 99⟩⟩ (by decide),
   C8_discrepancy_check_location.2.2
      "Item Qty Price Amount\nMouse 2 25.00 90.00\nTotal: 90.00"
      (some (fun _ => ("V", Frac.ofNat 1))) (fun _ => ("", 0)) 0⟩

/-- Claim C8 (counterexample): `parse_invoice_text` emits the item
`Mouse 2 25.00 90.00` although `round(2 * 25.00, 2) = 50.00` differs from
`90.00` by far more than `0.02`, and neither a warning nor a logger message
about a calculation discrepancy is produced — the claimed per-item warning
does not exist on the live path. -/
theorem C8_counterexample :
    (parse_invoice_text "Item Qty Price Amount\nMouse 2 25.00 90.00\nTotal: 90.00"
        (some (fun _ => ("V", Frac.ofNat 1))) (fun _ => ("", 0)) 0).items =
      [⟨"Mouse".data, 2, ⟨2500, 99⟩, ⟨9000, 99⟩⟩] ∧
    discrepant ⟨"Mouse".data, 2, ⟨2500, 99⟩, ⟨9000, 99⟩⟩ = true ∧
    ((Frac.ofNat (2 : Nat)).mul (⟨2500, 99⟩ : Frac)).round2 = ⟨5000, 99⟩ ∧
    ¬(|(⟨5000, 99⟩ : Frac).toRat - (⟨9000, 99⟩ : Frac).toRat| ≤ 2 / 100) ∧
    (parse_invoice_text "Item Qty Price Amount\nMouse 2 25.00 90.00\nTotal: 90.00"
        (some (fun _ => ("V", Frac.ofNat 1))) (fun _ => ("", 0)) 0).log = [] ∧
    (parse_invoice_text "Item Qty Price Amount\nMouse 2 25.00 90.00\nTotal: 90.00"
        (some (fun _ => ("V", Frac.ofNat 1))) (fun _ => ("", 0)) 0).validation.warnings =
      [] := by
  refine ⟨by decide, by decide, by decide, ?_, by decide, by decide⟩
  simp only [Frac.toRat, Frac.den]
  norm_num

end InvoiceProc
